import Mathlib

/-!
# Ticket participation: pricing engine and exit guard

A shallow embedding of `src/static/tickets/ticket_participation.js`.

* The DOM the script reads is a `FormState`: the locked items, the ticket
  inputs (`input[name^="group_"]`) and the no-ticket inputs
  (`input[name="no_ticket_events_dynamic"]`), each in document order.
* The four DOM nodes the script writes are a `View`.
* `calculateTotal` is the function of the same name, as a map from the form
  state and the view before the call to the view after it.
* The two flags and the listeners are the `Page` state and its `step`.

JavaScript values that occur: an event id is a string or `null`
(`Option String`), falsy when `null` or empty; prices are non-negative
integers (`Nat`); the final price is a difference (`Int`).
`participationCounts` is a plain object: a lookup that finds no own property
finds the member of `Object.prototype` of that name, if there is one. What a
lookup can yield, and what `||`, `+` and `<` do with it, is `JSValue`.
-/

namespace TicketParticipation

/-! ## Constants -/

def PRICE_TICKET : Nat := 23

def PRICE_NO_TICKET : Nat := 27

/-! ## The form state read from the DOM -/

/-- An element of class `touch-friendly-locked`; `dataEventId` is what
`getAttribute('data-event-id')` returns, `none` for `null`. -/
structure LockedItem where
  dataEventId : Option String
deriving DecidableEq

/-- An `input[name^="group_"]` element. -/
structure TicketInput where
  name : String
  checked : Bool
deriving DecidableEq

/-- An `input[name="no_ticket_events_dynamic"]` element. -/
structure NoTicketInput where
  value : String
  checked : Bool
deriving DecidableEq

structure FormState where
  lockedItems : List LockedItem
  ticketInputs : List TicketInput
  noTicketInputs : List NoTicketInput
deriving DecidableEq

/-! ## Strings -/

/-- Worker of `split`: `cur` holds the characters of the current segment,
last one first. -/
def splitAux (sep : Char) : List Char → List Char → List (List Char)
  | [], cur => [cur.reverse]
  | c :: cs, cur =>
    if c = sep then cur.reverse :: splitAux sep cs [] else splitAux sep cs (c :: cur)

/-- The method `String.prototype.split` with a one-character separator. -/
def split (s : String) (sep : Char) : List String :=
  (splitAux sep s.data []).map String.mk

/-- JavaScript truthiness of an event id: `null` and `""` are falsy. -/
def truthy : Option String → Bool
  | none => false
  | some e => decide (e ≠ "")

/-- The lines `const parts = input.name.split('_');
const eId = parts.length > 1 ? parts[1] : null;`. -/
def ticketEventId (name : String) : Option String :=
  let parts := split name '_'
  if parts.length > 1 then parts.get? 1 else none

/-! ## Plain objects -/

/-- The names of the members a plain object inherits from `Object.prototype`
in a browser. -/
def objectPrototypeKeys : List String :=
  ["constructor", "__defineGetter__", "__defineSetter__", "hasOwnProperty",
    "__lookupGetter__", "__lookupSetter__", "isPrototypeOf", "propertyIsEnumerable",
    "toString", "valueOf", "__proto__", "toLocaleString"]

/-- The values a property of `participationCounts` is read as or set to:
`undefined`, a number, `NaN`, an inherited member (a function, or the prototype
object for `__proto__`), and the string that `+ 1` makes of a member, which is
the text of the member followed by `ones` characters `1`. -/
inductive JSValue where
  | undefined
  | number (n : Nat)
  | nan
  | member
  | text (ones : Nat)
deriving DecidableEq

/-- Truthiness: `undefined`, `0` and `NaN` are falsy; a function, an object
and a non-empty string are truthy. -/
def JSValue.truthy : JSValue → Bool
  | .undefined => false
  | .number n => decide (n ≠ 0)
  | .nan => false
  | .member => true
  | .text _ => true

/-- The expression `v || 0`. -/
def JSValue.orZero (v : JSValue) : JSValue :=
  if v.truthy then v else .number 0

/-- The expression `v + 1`: addition on a number, `NaN` on `undefined`, and on
a function, an object or a string the string followed by `1`. -/
def JSValue.plusOne : JSValue → JSValue
  | .undefined => .nan
  | .number n => .number (n + 1)
  | .nan => .nan
  | .member => .text 1
  | .text ones => .text (ones + 1)

/-- The expression `v < k` for a number literal `k`: a value that is no number
converts to `NaN`, and a comparison with `NaN` is false. -/
def JSValue.lessThan : JSValue → Nat → Bool
  | .number n, k => decide (n < k)
  | _, _ => false

/-- The lookup `obj[k]` on a plain object with own properties `own`. -/
def getProp (own : String → Option JSValue) (k : String) : JSValue :=
  match own k with
  | some v => v
  | none => if k ∈ objectPrototypeKeys then .member else .undefined

/-- The assignment `obj[k] = v` of a number or a string to a plain object. Under
the name `__proto__` it calls the inherited setter, which ignores a value that
is not an object; under any other name it writes an own property. -/
def setProp (own : String → Option JSValue) (k : String) (v : JSValue) :
    String → Option JSValue :=
  if k = "__proto__" then own else fun j => if j = k then some v else own j

/-! ## The aggregates of one call -/

/-- The four local variables of `calculateTotal` that the passes update;
`participationCounts` holds the own properties of the object. -/
structure Tally where
  currentTotal : Nat
  currentSelection : List Nat
  allEventIds : List String
  participationCounts : String → Option JSValue

/-- The values the four variables are initialised with. -/
def Tally.init : Tally :=
  { currentTotal := 0, currentSelection := [], allEventIds := [],
    participationCounts := fun _ => none }

/-- The method `Set.prototype.add`: a set keeps insertion order and holds no
value twice. -/
def setAdd (s : List String) (x : String) : List String :=
  if x ∈ s then s else s ++ [x]

/-- The statement `if (eId) allEventIds.add(eId);`. -/
def registerId (t : Tally) (eId : Option String) : Tally :=
  match eId with
  | none => t
  | some e => if e = "" then t else { t with allEventIds := setAdd t.allEventIds e }

/-- The helper `addParticipation(eventId, isNewSelection, price)`. -/
def addParticipation (t : Tally) (eventId : Option String) (isNewSelection : Bool)
    (price : Nat) : Tally :=
  match eventId with
  | none => t
  | some e =>
    if e = "" then t
    else
      let t1 : Tally :=
        { t with
          allEventIds := setAdd t.allEventIds e
          participationCounts :=
            setProp t.participationCounts e
              (getProp t.participationCounts e).orZero.plusOne }
      if isNewSelection then
        { t1 with
          currentTotal := t1.currentTotal + price
          currentSelection := t1.currentSelection ++ [price] }
      else t1

/-- Body of `lockedItems.forEach`. -/
def lockedStep (t : Tally) (el : LockedItem) : Tally :=
  addParticipation t el.dataEventId false 0

/-- Body of `ticketInputs.forEach`. -/
def ticketStep (t : Tally) (input : TicketInput) : Tally :=
  let eId := ticketEventId input.name
  let t1 := registerId t eId
  if input.checked then addParticipation t1 eId true PRICE_TICKET else t1

/-- Body of `noTicketInputs.forEach`. -/
def noTicketStep (t : Tally) (input : NoTicketInput) : Tally :=
  let eId : Option String := some input.value
  let t1 := registerId t eId
  if input.checked then addParticipation t1 eId true PRICE_NO_TICKET else t1

/-- The three passes, in the order of the source. -/
def tally (s : FormState) : Tally :=
  let t1 := s.lockedItems.foldl lockedStep Tally.init
  let t2 := s.ticketInputs.foldl ticketStep t1
  s.noTicketInputs.foldl noTicketStep t2

/-- Body of the loop `for (let id of allEventIds)`, on the pair
`(participatedInAll, doubleParticipatedInAll)`. -/
def eligibilityStep (counts : String → Option JSValue) (flags : Bool × Bool)
    (id : String) : Bool × Bool :=
  let count := (getProp counts id).orZero
  let p := if count.lessThan 1 then false else flags.1
  let d := if count.lessThan 2 then false else flags.2
  (p, d)

/-- The block under `RABATT LOGIK`: the pair
`(participatedInAll, doubleParticipatedInAll)`. -/
def eligibility (t : Tally) : Bool × Bool :=
  let totalEventsCount := t.allEventIds.length
  if totalEventsCount = 0 then (false, false)
  else t.allEventIds.foldl (eligibilityStep t.participationCounts) (true, true)

def participatedInAll (s : FormState) : Bool := (eligibility (tally s)).1

def doubleParticipatedInAll (s : FormState) : Bool := (eligibility (tally s)).2

/-- The call `currentSelection.sort((a, b) => a - b)`: ascending order. -/
def sortAscending (l : List Nat) : List Nat := l.insertionSort (· ≤ ·)

def DOUBLE_BONUS : String := "Doppel-Bonus: 2 Plätze gratis!"

def SERIES_BONUS : String := "Serien-Bonus: 1x gratis!"

/-- The pair `(discountAmount, discountText)` chosen from the sorted selection
and the two flags. -/
def discountOf (currentSelection : List Nat) (dbl part : Bool) : Nat × String :=
  if currentSelection.length > 0 then
    if dbl then
      let itemsToDiscount := min currentSelection.length 2
      ((List.range itemsToDiscount).foldl (fun d i => d + currentSelection.getD i 0) 0,
        DOUBLE_BONUS)
    else if part then (currentSelection.getD 0 0, SERIES_BONUS)
    else (0, "")
  else (0, "")

/-- The array `currentSelection` after the sort. -/
def sortedSelection (s : FormState) : List Nat := sortAscending (tally s).currentSelection

def currentTotal (s : FormState) : Nat := (tally s).currentTotal

def discount (s : FormState) : Nat × String :=
  discountOf (sortedSelection s) (doubleParticipatedInAll s) (participatedInAll s)

def discountAmount (s : FormState) : Nat := (discount s).1

def discountText (s : FormState) : String := (discount s).2

/-- The value `currentTotal - discountAmount`. -/
def finalPrice (s : FormState) : Int := (currentTotal s : Int) - (discountAmount s : Int)

/-! ## The view -/

/-- The nodes `price-container`, `total-price`, `discount-badge` and
`price-details`: the properties the script assigns. -/
structure View where
  priceContainerDisplay : String
  priceDisplayText : String
  discountBadgeDisplay : String
  discountBadgeText : String
  detailsDisplayText : String
deriving DecidableEq

/-- The template for `lockedText`. -/
def lockedText (lockedCount : Nat) : String :=
  if lockedCount > 0 then " (+" ++ toString lockedCount ++ " bereits gebucht)" else ""

/-- The template for the details line under a discount. -/
def discountDetails (total amount lockedCount : Nat) : String :=
  "Regulär: " ++ toString total ++ " € - Rabatt: " ++ toString amount ++ " € "
    ++ lockedText lockedCount

/-- The template for the details line without a discount. -/
def plainDetails (count : Nat) : String :=
  toString count ++ " Positionen gewählt"

/-- The function `calculateTotal`: the view after the call, from the form
state read and the view before the call. -/
def calculateTotal (s : FormState) (v : View) : View :=
  let sel := sortedSelection s
  if sel.length > 0 then
    let v1 : View :=
      { v with priceContainerDisplay := "block", priceDisplayText := toString (finalPrice s) }
    if discountAmount s > 0 then
      { v1 with
        discountBadgeDisplay := "inline-block"
        discountBadgeText := discountText s
        detailsDisplayText :=
          discountDetails (currentTotal s) (discountAmount s) s.lockedItems.length }
    else
      { v1 with
        discountBadgeDisplay := "none"
        detailsDisplayText := plainDetails sel.length }
  else
    { v with priceContainerDisplay := "none" }

/-! ## The exit guard -/

/-- The object a `beforeunload` listener receives: whether `preventDefault`
was called, and `returnValue` (`none` until assigned). -/
structure UnloadEvent where
  defaultPrevented : Bool
  returnValue : Option String
deriving DecidableEq

/-- The `beforeunload` listener. -/
def beforeunload (isDirty isSubmitting : Bool) (e : UnloadEvent) : UnloadEvent :=
  if isDirty && !isSubmitting then
    { e with defaultPrevented := true, returnValue := some "" }
  else e

/-- What a click on `btn-cancel` does: whether `confirm` was called, and
whether `preventDefault` was called. -/
structure CancelOutcome where
  prompted : Bool
  defaultPrevented : Bool
deriving DecidableEq

/-- The click listener of `btn-cancel`; `answer` is what `confirm` returns
when it is called. The operator `&&` calls `confirm` only when `isDirty`. -/
def cancelClick (isDirty : Bool) (answer : Bool) : CancelOutcome :=
  if isDirty then
    if !answer then { prompted := true, defaultPrevented := true }
    else { prompted := true, defaultPrevented := false }
  else { prompted := false, defaultPrevented := false }

/-- The state that lives across listeners: the two flags and the view. -/
structure Page where
  isDirty : Bool
  isSubmitting : Bool
  view : View
deriving DecidableEq

/-- The events the script listens to, and `recompute`: a run of
`calculateTotal` (the initial call or a timer firing) on the form state the
DOM holds at that time. -/
inductive PageEvent where
  | checkboxChange
  | labelClick
  | submitClick
  | formSubmit
  | beforeUnload
  | cancelClick (answer : Bool)
  | recompute (dom : FormState)
deriving DecidableEq

/-- The state when the `DOMContentLoaded` listener has declared the flags,
before its first call of `calculateTotal`. -/
def Page.init (v : View) : Page :=
  { isDirty := false, isSubmitting := false, view := v }

/-- One listener run. -/
def step (p : Page) : PageEvent → Page
  | .checkboxChange => { p with isDirty := true }
  | .labelClick => { p with isDirty := true }
  | .submitClick => { p with isSubmitting := true }
  | .formSubmit => { p with isSubmitting := true }
  | .beforeUnload => p
  | .cancelClick _ => p
  | .recompute dom => { p with view := calculateTotal dom p.view }

/-- A sequence of listener runs. -/
def run (p : Page) (es : List PageEvent) : Page := es.foldl step p

/-! ## Reading aids for the statements -/

/-- The ticket input is checked and carries a usable id. -/
def TicketInput.selected (i : TicketInput) : Bool := i.checked && truthy (ticketEventId i.name)

/-- The no-ticket input is checked and carries a usable id. -/
def NoTicketInput.selected (i : NoTicketInput) : Bool := i.checked && truthy (some i.value)

/-- What one element does to the set of ids: add its id when it is truthy. -/
def regList (ids : List String) (eId : Option String) : List String :=
  match eId with
  | none => ids
  | some e => if e = "" then ids else setAdd ids e

/-- The ids of all elements in traversal order, `none` or `""` included. -/
def carriedIds (s : FormState) : List (Option String) :=
  s.lockedItems.map LockedItem.dataEventId
    ++ (s.ticketInputs.map TicketInput.name).map ticketEventId
    ++ (s.noTicketInputs.map NoTicketInput.value).map some

/-- Whether an element with id `eId` counts as a participation in event `k`. -/
def countsFor (k : String) (eId : Option String) : Bool :=
  decide (eId = some k) && truthy eId

/-- The number of participation records of the form that reference event `e`:
locked items, checked ticket inputs and checked no-ticket inputs with that
id. -/
def participations (s : FormState) (e : String) : Nat :=
  s.lockedItems.countP (fun el => decide (el.dataEventId = some e))
    + s.ticketInputs.countP (fun i => i.checked && decide (ticketEventId i.name = some e))
    + s.noTicketInputs.countP (fun i => i.checked && decide (i.value = e))

/-- The number of times the count of key `k` is incremented in a run over the
form. -/
def recorded (s : FormState) (k : String) : Nat :=
  s.lockedItems.countP (fun el => countsFor k el.dataEventId)
    + s.ticketInputs.countP (fun i => i.checked && countsFor k (ticketEventId i.name))
    + s.noTicketInputs.countP (fun i => i.checked && countsFor k (some i.value))

/-- What one increment of the count of key `k` does to the own property `k`
of the object. -/
def bumpOwn (k : String) (o : Option JSValue) : Option JSValue :=
  setProp (fun _ => o) k (getProp (fun _ => o) k).orZero.plusOne k

/-- Whether a `beforeunload` event dispatched in state `p` ends with
`preventDefault` called, that is, whether the browser asks the user. -/
def prompts (p : Page) : Bool :=
  (beforeunload p.isDirty p.isSubmitting
    { defaultPrevented := false, returnValue := none }).defaultPrevented

/-! ## Form states and views used as examples -/

/-- The scenario of C1: one locked participation for event A and one checked
ticket input for event A. -/
def scenarioDouble : FormState :=
  { lockedItems := [⟨some "A"⟩], ticketInputs := [⟨"group_A", true⟩], noTicketInputs := [] }

/-- Two events, each with one checked ticket input and nothing else. -/
def scenarioSeries : FormState :=
  { lockedItems := []
    ticketInputs := [⟨"group_1", true⟩, ⟨"group_2", true⟩]
    noTicketInputs := [] }

/-- A ticket input that is checked and whose name has an empty id segment. -/
def emptyIdChecked : FormState :=
  { lockedItems := [], ticketInputs := [⟨"group_", true⟩], noTicketInputs := [] }

/-- Three locked items and two inputs, none checked. -/
def scenarioLockedOnly : FormState :=
  { lockedItems := [⟨some "1"⟩, ⟨some "2"⟩, ⟨none⟩]
    ticketInputs := [⟨"group_3", false⟩]
    noTicketInputs := [⟨"3", false⟩] }

/-- The view of a page before the script has run. -/
def blankView : View :=
  { priceContainerDisplay := "", priceDisplayText := "", discountBadgeDisplay := "",
    discountBadgeText := "", detailsDisplayText := "" }

/-- One unchecked no-ticket input whose value is the empty string. -/
def emptyValueInput : FormState :=
  { lockedItems := [], ticketInputs := [], noTicketInputs := [⟨"", false⟩] }

/-- The series scenario with both ticket inputs unchecked. -/
def scenarioSeriesUnchecked : FormState :=
  { lockedItems := []
    ticketInputs := [⟨"group_1", false⟩, ⟨"group_2", false⟩]
    noTicketInputs := [] }

/-- A locked item without the attribute, a checked ticket input with an empty
id segment and a checked no-ticket input with an empty value, among elements
for event `1`. -/
def scenarioMalformed : FormState :=
  { lockedItems := [⟨some "1"⟩, ⟨none⟩]
    ticketInputs := [⟨"group_", true⟩, ⟨"group_1", true⟩]
    noTicketInputs := [⟨"1", false⟩, ⟨"", true⟩] }

/-- The form state `scenarioMalformed` without its three malformed elements. -/
def scenarioMalformedRemoved : FormState :=
  { lockedItems := [⟨some "1"⟩]
    ticketInputs := [⟨"group_1", true⟩]
    noTicketInputs := [⟨"1", false⟩] }

/-- Two checked ticket inputs for two events, a third event left out, and one
locked item. -/
def scenarioPlain : FormState :=
  { lockedItems := [⟨some "1"⟩]
    ticketInputs := [⟨"group_1", true⟩, ⟨"group_2", true⟩, ⟨"group_3", false⟩]
    noTicketInputs := [] }

/-- The series scenario with its ticket inputs in the other order. -/
def scenarioSeriesSwapped : FormState :=
  { lockedItems := []
    ticketInputs := [⟨"group_2", true⟩, ⟨"group_1", true⟩]
    noTicketInputs := [] }

/-- One checked ticket input for event `1` and one unchecked ticket input
whose event id is `toString`. -/
def inheritedUnchecked : FormState :=
  { lockedItems := []
    ticketInputs := [⟨"group_1", true⟩, ⟨"group_toString", false⟩]
    noTicketInputs := [] }

/-- Two events with the ids `constructor` and `valueOf`, each with one checked
ticket input and nothing else. -/
def inheritedPair : FormState :=
  { lockedItems := []
    ticketInputs := [⟨"group_constructor", true⟩, ⟨"group_valueOf", true⟩]
    noTicketInputs := [] }

/-- One checked ticket input whose event id is `constructor`. -/
def inheritedChecked : FormState :=
  { lockedItems := [], ticketInputs := [⟨"group_constructor", true⟩], noTicketInputs := [] }

/-- Two events with the ids `constructor` and `toString`, each with one checked
ticket input and nothing else. -/
def inheritedBoth : FormState :=
  { lockedItems := []
    ticketInputs := [⟨"group_constructor", true⟩, ⟨"group_toString", true⟩]
    noTicketInputs := [] }

/-! ## Lemmas on the passes -/

theorem addParticipation_falsy (t : Tally) (eId : Option String) (b : Bool) (p : Nat)
    (h : truthy eId = false) : addParticipation t eId b p = t := by
  cases eId with
  | none => rfl
  | some e =>
    have : e = "" := by simpa [truthy] using h
    simp [addParticipation, this]

theorem registerId_falsy (t : Tally) (eId : Option String)
    (h : truthy eId = false) : registerId t eId = t := by
  cases eId with
  | none => rfl
  | some e =>
    have : e = "" := by simpa [truthy] using h
    simp [registerId, this]

theorem registerId_currentSelection (t : Tally) (eId : Option String) :
    (registerId t eId).currentSelection = t.currentSelection := by
  unfold registerId
  split
  · rfl
  · split <;> rfl

theorem registerId_currentTotal (t : Tally) (eId : Option String) :
    (registerId t eId).currentTotal = t.currentTotal := by
  unfold registerId
  split
  · rfl
  · split <;> rfl

theorem registerId_participationCounts (t : Tally) (eId : Option String) :
    (registerId t eId).participationCounts = t.participationCounts := by
  unfold registerId
  split
  · rfl
  · split <;> rfl

theorem addParticipation_currentSelection (t : Tally) (eId : Option String) (b : Bool) (p : Nat) :
    (addParticipation t eId b p).currentSelection
      = t.currentSelection ++ (if truthy eId && b then [p] else []) := by
  cases eId with
  | none => simp [addParticipation, truthy]
  | some e =>
    by_cases he : e = ""
    · simp [addParticipation, truthy, he]
    · cases b <;> simp [addParticipation, truthy, he]

theorem addParticipation_currentTotal (t : Tally) (eId : Option String) (b : Bool) (p : Nat) :
    (addParticipation t eId b p).currentTotal
      = t.currentTotal + (if truthy eId && b then p else 0) := by
  cases eId with
  | none => simp [addParticipation, truthy]
  | some e =>
    by_cases he : e = ""
    · simp [addParticipation, truthy, he]
    · cases b <;> simp [addParticipation, truthy, he]

theorem lockedStep_currentSelection (t : Tally) (el : LockedItem) :
    (lockedStep t el).currentSelection = t.currentSelection := by
  simp [lockedStep, addParticipation_currentSelection]

theorem lockedStep_currentTotal (t : Tally) (el : LockedItem) :
    (lockedStep t el).currentTotal = t.currentTotal := by
  simp [lockedStep, addParticipation_currentTotal]

theorem ticketStep_currentSelection (t : Tally) (i : TicketInput) :
    (ticketStep t i).currentSelection
      = t.currentSelection ++ (if i.selected then [PRICE_TICKET] else []) := by
  unfold ticketStep TicketInput.selected
  cases hc : i.checked <;>
    simp [addParticipation_currentSelection, registerId_currentSelection]

theorem ticketStep_currentTotal (t : Tally) (i : TicketInput) :
    (ticketStep t i).currentTotal
      = t.currentTotal + (if i.selected then PRICE_TICKET else 0) := by
  unfold ticketStep TicketInput.selected
  cases hc : i.checked <;>
    simp [addParticipation_currentTotal, registerId_currentTotal]

theorem noTicketStep_currentSelection (t : Tally) (i : NoTicketInput) :
    (noTicketStep t i).currentSelection
      = t.currentSelection ++ (if i.selected then [PRICE_NO_TICKET] else []) := by
  unfold noTicketStep NoTicketInput.selected
  cases hc : i.checked <;>
    simp [addParticipation_currentSelection, registerId_currentSelection]

theorem noTicketStep_currentTotal (t : Tally) (i : NoTicketInput) :
    (noTicketStep t i).currentTotal
      = t.currentTotal + (if i.selected then PRICE_NO_TICKET else 0) := by
  unfold noTicketStep NoTicketInput.selected
  cases hc : i.checked <;>
    simp [addParticipation_currentTotal, registerId_currentTotal]

theorem foldl_lockedStep_currentSelection (l : List LockedItem) (t : Tally) :
    (l.foldl lockedStep t).currentSelection = t.currentSelection := by
  induction l generalizing t with
  | nil => rfl
  | cons a l ih => simp [List.foldl_cons, ih, lockedStep_currentSelection]

theorem foldl_lockedStep_currentTotal (l : List LockedItem) (t : Tally) :
    (l.foldl lockedStep t).currentTotal = t.currentTotal := by
  induction l generalizing t with
  | nil => rfl
  | cons a l ih => simp [List.foldl_cons, ih, lockedStep_currentTotal]

theorem foldl_ticketStep_currentSelection (l : List TicketInput) (t : Tally) :
    (l.foldl ticketStep t).currentSelection
      = t.currentSelection ++ List.replicate (l.countP TicketInput.selected) PRICE_TICKET := by
  induction l generalizing t with
  | nil => simp
  | cons a l ih =>
    rw [List.foldl_cons, ih, ticketStep_currentSelection, List.countP_cons]
    cases a.selected <;> simp [List.replicate_succ, Nat.add_comm]

theorem foldl_ticketStep_currentTotal (l : List TicketInput) (t : Tally) :
    (l.foldl ticketStep t).currentTotal
      = t.currentTotal + PRICE_TICKET * l.countP TicketInput.selected := by
  induction l generalizing t with
  | nil => simp
  | cons a l ih =>
    rw [List.foldl_cons, ih, ticketStep_currentTotal, List.countP_cons]
    cases a.selected
    · simp
    · simp
      ring

theorem foldl_noTicketStep_currentSelection (l : List NoTicketInput) (t : Tally) :
    (l.foldl noTicketStep t).currentSelection
      = t.currentSelection
        ++ List.replicate (l.countP NoTicketInput.selected) PRICE_NO_TICKET := by
  induction l generalizing t with
  | nil => simp
  | cons a l ih =>
    rw [List.foldl_cons, ih, noTicketStep_currentSelection, List.countP_cons]
    cases a.selected <;> simp [List.replicate_succ, Nat.add_comm]

theorem foldl_noTicketStep_currentTotal (l : List NoTicketInput) (t : Tally) :
    (l.foldl noTicketStep t).currentTotal
      = t.currentTotal + PRICE_NO_TICKET * l.countP NoTicketInput.selected := by
  induction l generalizing t with
  | nil => simp
  | cons a l ih =>
    rw [List.foldl_cons, ih, noTicketStep_currentTotal, List.countP_cons]
    cases a.selected
    · simp
    · simp
      ring

theorem tally_currentSelection (s : FormState) :
    (tally s).currentSelection
      = List.replicate (s.ticketInputs.countP TicketInput.selected) PRICE_TICKET
        ++ List.replicate (s.noTicketInputs.countP NoTicketInput.selected) PRICE_NO_TICKET := by
  simp [tally, foldl_noTicketStep_currentSelection, foldl_ticketStep_currentSelection,
    foldl_lockedStep_currentSelection, Tally.init]

theorem tally_currentTotal (s : FormState) :
    (tally s).currentTotal
      = PRICE_TICKET * s.ticketInputs.countP TicketInput.selected
        + PRICE_NO_TICKET * s.noTicketInputs.countP NoTicketInput.selected := by
  simp [tally, foldl_noTicketStep_currentTotal, foldl_ticketStep_currentTotal,
    foldl_lockedStep_currentTotal, Tally.init]

/-! ## The set of ids -/

theorem mem_setAdd (s : List String) (x y : String) :
    y ∈ setAdd s x ↔ y ∈ s ∨ y = x := by
  unfold setAdd
  split
  · constructor
    · exact Or.inl
    · rintro (h | rfl)
      · exact h
      · assumption
  · simp

theorem setAdd_setAdd (s : List String) (x : String) :
    setAdd (setAdd s x) x = setAdd s x := by
  have h : x ∈ setAdd s x := (mem_setAdd s x x).2 (Or.inr rfl)
  generalize setAdd s x = r at h ⊢
  simp [setAdd, h]

theorem mem_regList (ids : List String) (eId : Option String) (y : String) :
    y ∈ regList ids eId ↔ y ∈ ids ∨ (y ≠ "" ∧ eId = some y) := by
  cases eId with
  | none => simp [regList]
  | some e =>
    by_cases he : e = ""
    · subst he
      simp only [regList, if_true]
      constructor
      · exact Or.inl
      · rintro (h | ⟨h1, h2⟩)
        · exact h
        · exact absurd (Option.some.inj h2).symm h1
    · simp only [regList, he, if_false, mem_setAdd]
      constructor
      · rintro (h | rfl)
        · exact Or.inl h
        · exact Or.inr ⟨he, rfl⟩
      · rintro (h | ⟨_, h2⟩)
        · exact Or.inl h
        · exact Or.inr (Option.some.inj h2).symm

theorem mem_foldl_regList (os : List (Option String)) (ids : List String) (y : String) :
    y ∈ os.foldl regList ids ↔ y ∈ ids ∨ (y ≠ "" ∧ some y ∈ os) := by
  induction os generalizing ids with
  | nil => simp
  | cons o os ih =>
    rw [List.foldl_cons, ih, mem_regList, List.mem_cons]
    constructor
    · rintro ((h | ⟨h1, h2⟩) | ⟨h1, h2⟩)
      · exact Or.inl h
      · exact Or.inr ⟨h1, Or.inl h2.symm⟩
      · exact Or.inr ⟨h1, Or.inr h2⟩
    · rintro (h | ⟨h1, h2 | h2⟩)
      · exact Or.inl (Or.inl h)
      · exact Or.inl (Or.inr ⟨h1, h2.symm⟩)
      · exact Or.inr ⟨h1, h2⟩

theorem registerId_allEventIds (t : Tally) (eId : Option String) :
    (registerId t eId).allEventIds = regList t.allEventIds eId := by
  cases eId with
  | none => rfl
  | some e =>
    by_cases he : e = ""
    · simp [registerId, regList, he]
    · simp [registerId, regList, he]

theorem addParticipation_allEventIds (t : Tally) (eId : Option String) (b : Bool) (p : Nat) :
    (addParticipation t eId b p).allEventIds = regList t.allEventIds eId := by
  cases eId with
  | none => rfl
  | some e =>
    by_cases he : e = ""
    · simp [addParticipation, regList, he]
    · cases b <;> simp [addParticipation, regList, he]

theorem regList_regList (ids : List String) (eId : Option String) :
    regList (regList ids eId) eId = regList ids eId := by
  cases eId with
  | none => rfl
  | some e =>
    by_cases he : e = ""
    · simp [regList, he]
    · simp [regList, he, setAdd_setAdd]

theorem lockedStep_allEventIds (t : Tally) (el : LockedItem) :
    (lockedStep t el).allEventIds = regList t.allEventIds el.dataEventId := by
  simp [lockedStep, addParticipation_allEventIds]

theorem ticketStep_allEventIds (t : Tally) (i : TicketInput) :
    (ticketStep t i).allEventIds = regList t.allEventIds (ticketEventId i.name) := by
  unfold ticketStep
  cases i.checked <;>
    simp [addParticipation_allEventIds, registerId_allEventIds, regList_regList]

theorem noTicketStep_allEventIds (t : Tally) (i : NoTicketInput) :
    (noTicketStep t i).allEventIds = regList t.allEventIds (some i.value) := by
  unfold noTicketStep
  cases i.checked <;>
    simp [addParticipation_allEventIds, registerId_allEventIds, regList_regList]

theorem foldl_lockedStep_allEventIds (l : List LockedItem) (t : Tally) :
    (l.foldl lockedStep t).allEventIds
      = (l.map LockedItem.dataEventId).foldl regList t.allEventIds := by
  induction l generalizing t with
  | nil => rfl
  | cons a l ih => simp [List.foldl_cons, ih, lockedStep_allEventIds]

theorem foldl_ticketStep_allEventIds (l : List TicketInput) (t : Tally) :
    (l.foldl ticketStep t).allEventIds
      = ((l.map TicketInput.name).map ticketEventId).foldl regList t.allEventIds := by
  induction l generalizing t with
  | nil => rfl
  | cons a l ih => simp [List.foldl_cons, ih, ticketStep_allEventIds]

theorem foldl_noTicketStep_allEventIds (l : List NoTicketInput) (t : Tally) :
    (l.foldl noTicketStep t).allEventIds
      = ((l.map NoTicketInput.value).map some).foldl regList t.allEventIds := by
  induction l generalizing t with
  | nil => rfl
  | cons a l ih => simp [List.foldl_cons, ih, noTicketStep_allEventIds]

theorem tally_allEventIds (s : FormState) :
    (tally s).allEventIds = (carriedIds s).foldl regList [] := by
  simp only [tally, carriedIds, foldl_noTicketStep_allEventIds, foldl_ticketStep_allEventIds,
    foldl_lockedStep_allEventIds, List.foldl_append, Tally.init]

/-! ## Eligibility -/

theorem eligibilityStep_eq (c : String → Option JSValue) (p d : Bool) (a : String) :
    eligibilityStep c (p, d) a
      = (!((getProp c a).orZero.lessThan 1) && p, !((getProp c a).orZero.lessThan 2) && d) := by
  unfold eligibilityStep
  simp only []
  generalize (getProp c a).orZero.lessThan 1 = x
  generalize (getProp c a).orZero.lessThan 2 = y
  cases x <;> cases y <;> simp

theorem foldl_eligibilityStep (c : String → Option JSValue) (l : List String) (p d : Bool) :
    l.foldl (eligibilityStep c) (p, d)
      = (p && l.all (fun id => !((getProp c id).orZero.lessThan 1)),
          d && l.all (fun id => !((getProp c id).orZero.lessThan 2))) := by
  induction l generalizing p d with
  | nil => simp
  | cons a l ih =>
    rw [List.foldl_cons, eligibilityStep_eq, ih, List.all_cons, List.all_cons]
    cases p <;> cases d <;> simp

theorem eligibility_fst (t : Tally) :
    (eligibility t).1 = true ↔
      t.allEventIds ≠ [] ∧
        ∀ id ∈ t.allEventIds, (getProp t.participationCounts id).orZero.lessThan 1 = false := by
  unfold eligibility
  by_cases h : t.allEventIds = []
  · simp [h]
  · have : t.allEventIds.length ≠ 0 := by simpa using h
    simp [this, foldl_eligibilityStep, h]

theorem eligibility_snd (t : Tally) :
    (eligibility t).2 = true ↔
      t.allEventIds ≠ [] ∧
        ∀ id ∈ t.allEventIds, (getProp t.participationCounts id).orZero.lessThan 2 = false := by
  unfold eligibility
  by_cases h : t.allEventIds = []
  · simp [h]
  · have : t.allEventIds.length ≠ 0 := by simpa using h
    simp [this, foldl_eligibilityStep, h]

/-! ## Selection, order and discount -/

theorem mem_allEventIds (s : FormState) (y : String) :
    y ∈ (tally s).allEventIds ↔ y ≠ "" ∧ some y ∈ carriedIds s := by
  rw [tally_allEventIds, mem_foldl_regList]
  simp

theorem truthy_eq_true (o : Option String) :
    truthy o = true ↔ ∃ e, o = some e ∧ e ≠ "" := by
  cases o with
  | none => simp [truthy]
  | some e => simp [truthy]

theorem allEventIds_ne_nil (s : FormState) (h : (tally s).currentSelection ≠ []) :
    (tally s).allEventIds ≠ [] := by
  rw [tally_currentSelection] at h
  have h' : 0 < s.ticketInputs.countP TicketInput.selected
      ∨ 0 < s.noTicketInputs.countP NoTicketInput.selected := by
    by_contra hc
    push_neg at hc
    have h1 : s.ticketInputs.countP TicketInput.selected = 0 := by omega
    have h2 : s.noTicketInputs.countP NoTicketInput.selected = 0 := by omega
    apply h
    rw [h1, h2]
    rfl
  have key : ∃ y, y ∈ (tally s).allEventIds := by
    rcases h' with h' | h'
    · obtain ⟨i, hi, hs⟩ := List.countP_pos_iff.mp h'
      have ht : truthy (ticketEventId i.name) = true := by
        simp only [TicketInput.selected, Bool.and_eq_true] at hs
        exact hs.2
      obtain ⟨e, he, hne⟩ := (truthy_eq_true _).mp ht
      refine ⟨e, (mem_allEventIds s e).2 ⟨hne, ?_⟩⟩
      simp only [carriedIds, List.mem_append, List.mem_map]
      exact Or.inl (Or.inr ⟨i.name, ⟨i, hi, rfl⟩, he⟩)
    · obtain ⟨i, hi, hs⟩ := List.countP_pos_iff.mp h'
      have ht : truthy (some i.value) = true := by
        simp only [NoTicketInput.selected, Bool.and_eq_true] at hs
        exact hs.2
      obtain ⟨e, he, hne⟩ := (truthy_eq_true _).mp ht
      refine ⟨e, (mem_allEventIds s e).2 ⟨hne, ?_⟩⟩
      simp only [carriedIds, List.mem_append, List.mem_map]
      exact Or.inr ⟨i.value, ⟨i, hi, rfl⟩, he⟩
  obtain ⟨y, hy⟩ := key
  exact List.ne_nil_of_mem hy

theorem sortAscending_sorted (l : List Nat) : List.Sorted (· ≤ ·) (sortAscending l) :=
  List.sorted_insertionSort (· ≤ ·) l

theorem sortAscending_perm (l : List Nat) : (sortAscending l).Perm l :=
  List.perm_insertionSort (· ≤ ·) l

theorem sortAscending_ne_nil (l : List Nat) (h : l ≠ []) : sortAscending l ≠ [] := by
  intro hc
  have := (sortAscending_perm l).length_eq
  rw [hc] at this
  exact h (List.length_eq_zero.mp this.symm)

theorem mem_currentSelection (s : FormState) (p : Nat) (h : p ∈ (tally s).currentSelection) :
    p = PRICE_TICKET ∨ p = PRICE_NO_TICKET := by
  rw [tally_currentSelection, List.mem_append] at h
  rcases h with h | h
  · exact Or.inl (List.eq_of_mem_replicate h)
  · exact Or.inr (List.eq_of_mem_replicate h)

theorem mem_sortedSelection (s : FormState) (p : Nat) (h : p ∈ sortedSelection s) :
    p = PRICE_TICKET ∨ p = PRICE_NO_TICKET :=
  mem_currentSelection s p ((sortAscending_perm _).mem_iff.mp h)

theorem discountOf_nil (dbl part : Bool) : discountOf [] dbl part = (0, "") := rfl

theorem discountOf_double (a : Nat) (l : List Nat) (part : Bool) :
    discountOf (a :: l) true part = (((a :: l).take 2).sum, DOUBLE_BONUS) := by
  cases l with
  | nil => simp [discountOf, List.range_succ]
  | cons b r =>
    have : min (r.length + 1 + 1) 2 = 2 := by omega
    simp [discountOf, this, List.range_succ]

theorem discountOf_single (a : Nat) (l : List Nat) :
    discountOf (a :: l) false true = (a, SERIES_BONUS) := by
  simp [discountOf]

theorem discountOf_none (l : List Nat) :
    discountOf l false false = (0, "") := by
  simp [discountOf]

theorem sorted_head_le (a : Nat) (l : List Nat) (h : List.Sorted (· ≤ ·) (a :: l)) :
    ∀ p ∈ a :: l, a ≤ p := by
  intro p hp
  rcases List.mem_cons.mp hp with rfl | hp
  · exact le_refl _
  · exact List.rel_of_sorted_cons h p hp

theorem discount_of_double (s : FormState) (hsel : (tally s).currentSelection ≠ [])
    (h : doubleParticipatedInAll s = true) :
    discount s = (((sortedSelection s).take 2).sum, DOUBLE_BONUS) := by
  have hne : sortedSelection s ≠ [] := sortAscending_ne_nil _ hsel
  unfold discount
  rw [h]
  obtain ⟨a, l, hl⟩ := List.exists_cons_of_ne_nil hne
  rw [hl, discountOf_double]

theorem discount_of_single (s : FormState) (hsel : (tally s).currentSelection ≠ [])
    (hd : doubleParticipatedInAll s = false) (hp : participatedInAll s = true) :
    ∃ a l, sortedSelection s = a :: l ∧ discount s = (a, SERIES_BONUS) := by
  have hne : sortedSelection s ≠ [] := sortAscending_ne_nil _ hsel
  obtain ⟨a, l, hl⟩ := List.exists_cons_of_ne_nil hne
  refine ⟨a, l, hl, ?_⟩
  unfold discount
  rw [hd, hp, hl, discountOf_single]

theorem discount_of_none (s : FormState)
    (hd : doubleParticipatedInAll s = false) (hp : participatedInAll s = false) :
    discount s = (0, "") := by
  unfold discount
  rw [hd, hp, discountOf_none]

/-! ## Participation counts -/

theorem countsFor_of_ne (k : String) (hk : k ≠ "") (eId : Option String) :
    countsFor k eId = decide (eId = some k) := by
  unfold countsFor
  by_cases h : eId = some k
  · subst h
    simp [truthy, hk]
  · simp [h]

theorem recorded_eq_participations (s : FormState) (k : String) (hk : k ≠ "") :
    recorded s k = participations s k := by
  unfold recorded participations
  simp only [countsFor_of_ne k hk, Option.some.injEq]

theorem setProp_bump (own : String → Option JSValue) (e j : String) :
    setProp own e (getProp own e).orZero.plusOne j
      = if j = e then bumpOwn e (own e) else own j := by
  unfold bumpOwn setProp getProp
  by_cases he : e = "__proto__"
  · by_cases hj : j = e
    · simp [he, hj]
    · have hj' : ¬ j = "__proto__" := he ▸ hj
      simp [he, hj']
  · by_cases hj : j = e
    · simp [he, hj]
    · simp [he, hj]

theorem addParticipation_participationCounts (t : Tally) (eId : Option String) (b : Bool)
    (p : Nat) (k : String) :
    (addParticipation t eId b p).participationCounts k
      = if countsFor k eId then bumpOwn k (t.participationCounts k)
        else t.participationCounts k := by
  cases eId with
  | none => simp [addParticipation, countsFor]
  | some e =>
    by_cases he : e = ""
    · simp [addParticipation, countsFor, truthy, he]
    · by_cases hk : k = e
      · subst hk
        cases b <;> simp [addParticipation, countsFor, truthy, he, setProp_bump]
      · have hk' : ¬ e = k := fun h => hk h.symm
        cases b <;> simp [addParticipation, countsFor, truthy, he, hk, hk', setProp_bump]

theorem lockedStep_participationCounts (t : Tally) (el : LockedItem) (k : String) :
    (lockedStep t el).participationCounts k
      = if countsFor k el.dataEventId then bumpOwn k (t.participationCounts k)
        else t.participationCounts k := by
  simp [lockedStep, addParticipation_participationCounts]

theorem ticketStep_participationCounts (t : Tally) (i : TicketInput) (k : String) :
    (ticketStep t i).participationCounts k
      = if i.checked && countsFor k (ticketEventId i.name)
        then bumpOwn k (t.participationCounts k) else t.participationCounts k := by
  unfold ticketStep
  cases i.checked <;>
    simp [addParticipation_participationCounts, registerId_participationCounts]

theorem noTicketStep_participationCounts (t : Tally) (i : NoTicketInput) (k : String) :
    (noTicketStep t i).participationCounts k
      = if i.checked && countsFor k (some i.value)
        then bumpOwn k (t.participationCounts k) else t.participationCounts k := by
  unfold noTicketStep
  cases i.checked <;>
    simp [addParticipation_participationCounts, registerId_participationCounts]

theorem foldl_lockedStep_participationCounts (l : List LockedItem) (t : Tally) (k : String) :
    (l.foldl lockedStep t).participationCounts k
      = (bumpOwn k)^[l.countP (fun el => countsFor k el.dataEventId)]
          (t.participationCounts k) := by
  induction l generalizing t with
  | nil => simp
  | cons a l ih =>
    rw [List.foldl_cons, ih, lockedStep_participationCounts, List.countP_cons]
    cases countsFor k a.dataEventId
    · simp
    · simp [Function.iterate_succ_apply]

theorem foldl_ticketStep_participationCounts (l : List TicketInput) (t : Tally) (k : String) :
    (l.foldl ticketStep t).participationCounts k
      = (bumpOwn k)^[l.countP (fun i => i.checked && countsFor k (ticketEventId i.name))]
          (t.participationCounts k) := by
  induction l generalizing t with
  | nil => simp
  | cons a l ih =>
    rw [List.foldl_cons, ih, ticketStep_participationCounts, List.countP_cons]
    cases (a.checked && countsFor k (ticketEventId a.name))
    · simp
    · simp [Function.iterate_succ_apply]

theorem foldl_noTicketStep_participationCounts (l : List NoTicketInput) (t : Tally)
    (k : String) :
    (l.foldl noTicketStep t).participationCounts k
      = (bumpOwn k)^[l.countP (fun i => i.checked && countsFor k (some i.value))]
          (t.participationCounts k) := by
  induction l generalizing t with
  | nil => simp
  | cons a l ih =>
    rw [List.foldl_cons, ih, noTicketStep_participationCounts, List.countP_cons]
    cases (a.checked && countsFor k (some a.value))
    · simp
    · simp [Function.iterate_succ_apply]

theorem tally_participationCounts (s : FormState) (k : String) :
    (tally s).participationCounts k = (bumpOwn k)^[recorded s k] none := by
  simp only [tally, foldl_noTicketStep_participationCounts, foldl_ticketStep_participationCounts,
    foldl_lockedStep_participationCounts, Tally.init, recorded]
  rw [← Function.iterate_add_apply, ← Function.iterate_add_apply]
  congr 1
  omega

theorem bumpOwn_iterate_plain (k : String) (hk : k ∉ objectPrototypeKeys) (n : Nat) :
    (bumpOwn k)^[n] none = if n = 0 then none else some (JSValue.number n) := by
  have hp : k ≠ "__proto__" := by
    intro h
    exact hk (by rw [h]; decide)
  induction n with
  | zero => rfl
  | succ n ih =>
    rw [Function.iterate_succ_apply', ih]
    by_cases hn : n = 0
    · subst hn
      simp [bumpOwn, setProp, getProp, hp, hk, JSValue.orZero, JSValue.truthy, JSValue.plusOne]
    · simp [bumpOwn, setProp, getProp, hp, hn, JSValue.orZero, JSValue.truthy, JSValue.plusOne]

theorem bumpOwn_iterate_inherited (k : String) (hk : k ∈ objectPrototypeKeys) (n : Nat) :
    (bumpOwn k)^[n] none = none ∨ ∃ j, (bumpOwn k)^[n] none = some (JSValue.text j) := by
  induction n with
  | zero => exact Or.inl rfl
  | succ n ih =>
    rw [Function.iterate_succ_apply']
    by_cases hp : k = "__proto__"
    · rcases ih with h | ⟨j, h⟩
      · left
        rw [h]
        simp [bumpOwn, setProp, hp]
      · right
        refine ⟨j, ?_⟩
        rw [h]
        simp [bumpOwn, setProp, hp]
    · right
      rcases ih with h | ⟨j, h⟩
      · refine ⟨1, ?_⟩
        rw [h]
        simp [bumpOwn, setProp, getProp, hp, hk, JSValue.orZero, JSValue.truthy,
          JSValue.plusOne]
      · refine ⟨j + 1, ?_⟩
        rw [h]
        simp [bumpOwn, setProp, getProp, hp, JSValue.orZero, JSValue.truthy, JSValue.plusOne]

theorem count_of_plain (s : FormState) (k : String) (hk : k ∉ objectPrototypeKeys) :
    (getProp (tally s).participationCounts k).orZero = JSValue.number (recorded s k) := by
  unfold getProp
  rw [tally_participationCounts, bumpOwn_iterate_plain k hk]
  by_cases hn : recorded s k = 0
  · simp [hn, hk, JSValue.orZero, JSValue.truthy]
  · simp [hn, JSValue.orZero, JSValue.truthy]

theorem count_of_inherited (s : FormState) (k : String) (hk : k ∈ objectPrototypeKeys)
    (n : Nat) :
    (getProp (tally s).participationCounts k).orZero.lessThan n = false := by
  unfold getProp
  rw [tally_participationCounts]
  rcases bumpOwn_iterate_inherited k hk (recorded s k) with h | ⟨j, h⟩
  · rw [h]
    simp [hk, JSValue.orZero, JSValue.truthy, JSValue.lessThan]
  · rw [h]
    simp [JSValue.orZero, JSValue.truthy, JSValue.lessThan]

theorem count_not_below_iff (s : FormState) (id : String) (hid : id ∈ (tally s).allEventIds)
    (n : Nat) :
    (getProp (tally s).participationCounts id).orZero.lessThan n = false ↔
      id ∈ objectPrototypeKeys ∨ n ≤ participations s id := by
  have hne : id ≠ "" := ((mem_allEventIds s id).1 hid).1
  by_cases hk : id ∈ objectPrototypeKeys
  · simp [hk, count_of_inherited s id hk n]
  · rw [count_of_plain s id hk, recorded_eq_participations s id hne]
    simp [hk, JSValue.lessThan]

theorem doubleParticipatedInAll_iff (s : FormState) :
    doubleParticipatedInAll s = true ↔
      (tally s).allEventIds ≠ [] ∧
        ∀ id ∈ (tally s).allEventIds, id ∈ objectPrototypeKeys ∨ 2 ≤ participations s id := by
  unfold doubleParticipatedInAll
  rw [eligibility_snd]
  constructor
  · rintro ⟨hne, h⟩
    exact ⟨hne, fun id hid => (count_not_below_iff s id hid 2).1 (h id hid)⟩
  · rintro ⟨hne, h⟩
    exact ⟨hne, fun id hid => (count_not_below_iff s id hid 2).2 (h id hid)⟩

theorem participatedInAll_iff (s : FormState) :
    participatedInAll s = true ↔
      (tally s).allEventIds ≠ [] ∧
        ∀ id ∈ (tally s).allEventIds, id ∈ objectPrototypeKeys ∨ 1 ≤ participations s id := by
  unfold participatedInAll
  rw [eligibility_fst]
  constructor
  · rintro ⟨hne, h⟩
    exact ⟨hne, fun id hid => (count_not_below_iff s id hid 1).1 (h id hid)⟩
  · rintro ⟨hne, h⟩
    exact ⟨hne, fun id hid => (count_not_below_iff s id hid 1).2 (h id hid)⟩

/-! ## Lemmas for the claims -/

theorem discountText_eq_series_iff (s : FormState) (hsel : (tally s).currentSelection ≠ []) :
    discountText s = SERIES_BONUS ↔
      doubleParticipatedInAll s = false ∧ participatedInAll s = true := by
  cases hd : doubleParticipatedInAll s
  · cases hp : participatedInAll s
    · have := discount_of_none s hd hp
      simp [discountText, this, SERIES_BONUS]
    · obtain ⟨a, l, _, h⟩ := discount_of_single s hsel hd hp
      simp [discountText, h]
  · have := discount_of_double s hsel hd
    simp [discountText, this, SERIES_BONUS, DOUBLE_BONUS]

theorem currentSelection_eq_nil_of_unchecked (s : FormState)
    (h1 : ∀ i ∈ s.ticketInputs, i.checked = false)
    (h2 : ∀ i ∈ s.noTicketInputs, i.checked = false) :
    (tally s).currentSelection = [] := by
  have c1 : s.ticketInputs.countP TicketInput.selected = 0 := by
    rw [List.countP_eq_zero]
    intro i hi
    simp [TicketInput.selected, h1 i hi]
  have c2 : s.noTicketInputs.countP NoTicketInput.selected = 0 := by
    rw [List.countP_eq_zero]
    intro i hi
    simp [NoTicketInput.selected, h2 i hi]
  rw [tally_currentSelection, c1, c2]
  rfl

theorem sortedSelection_length_pos (s : FormState) (h : (tally s).currentSelection ≠ []) :
    (sortedSelection s).length > 0 :=
  List.length_pos.mpr (sortAscending_ne_nil _ h)

theorem currentTotal_eq_sum (s : FormState) :
    currentTotal s = (tally s).currentSelection.sum := by
  unfold currentTotal
  rw [tally_currentTotal, tally_currentSelection]
  simp [List.sum_replicate, Nat.mul_comm]

theorem some_mem_carriedIds (s : FormState) (e : String) :
    some e ∈ carriedIds s ↔
      (LockedItem.mk (some e) ∈ s.lockedItems
        ∨ (∃ i ∈ s.ticketInputs, ticketEventId i.name = some e)
        ∨ (∃ i ∈ s.noTicketInputs, i.value = e)) := by
  simp only [carriedIds, List.mem_append, List.mem_map, or_assoc]
  constructor
  · rintro (⟨el, hel, h⟩ | ⟨n, ⟨i, hi, rfl⟩, h⟩ | ⟨x, ⟨i, hi, rfl⟩, h⟩)
    · left
      cases el
      simp only at h
      rw [h] at hel
      exact hel
    · exact Or.inr (Or.inl ⟨i, hi, h⟩)
    · exact Or.inr (Or.inr ⟨i, hi, Option.some.inj h⟩)
  · rintro (h | ⟨i, hi, h⟩ | ⟨i, hi, h⟩)
    · exact Or.inl ⟨_, h, rfl⟩
    · exact Or.inr (Or.inl ⟨i.name, ⟨i, hi, rfl⟩, h⟩)
    · exact Or.inr (Or.inr ⟨i.value, ⟨i, hi, rfl⟩, congrArg some h⟩)

theorem step_isDirty (p : Page) (e : PageEvent) :
    (step p e).isDirty = (p.isDirty || decide (e = .checkboxChange ∨ e = .labelClick)) := by
  cases e <;> simp [step]

theorem run_isDirty (es : List PageEvent) (p : Page) :
    (run p es).isDirty = true ↔
      p.isDirty = true ∨ ∃ e ∈ es, e = PageEvent.checkboxChange ∨ e = PageEvent.labelClick := by
  induction es generalizing p with
  | nil => simp [run]
  | cons a es ih =>
    have : run p (a :: es) = run (step p a) es := rfl
    rw [this, ih, step_isDirty]
    simp only [Bool.or_eq_true, decide_eq_true_eq, List.mem_cons, exists_eq_or_imp, or_assoc]

theorem step_isSubmitting (p : Page) (e : PageEvent) :
    (step p e).isSubmitting = (p.isSubmitting || decide (e = .submitClick ∨ e = .formSubmit)) := by
  cases e <;> simp [step]

theorem run_isSubmitting (es : List PageEvent) (p : Page) :
    (run p es).isSubmitting = true ↔
      p.isSubmitting = true ∨ ∃ e ∈ es, e = PageEvent.submitClick ∨ e = PageEvent.formSubmit := by
  induction es generalizing p with
  | nil => simp [run]
  | cons a es ih =>
    have : run p (a :: es) = run (step p a) es := rfl
    rw [this, ih, step_isSubmitting]
    simp only [Bool.or_eq_true, decide_eq_true_eq, List.mem_cons, exists_eq_or_imp, or_assoc]

theorem prompts_iff (p : Page) :
    prompts p = true ↔ p.isDirty = true ∧ p.isSubmitting = false := by
  unfold prompts beforeunload
  cases p.isDirty <;> cases p.isSubmitting <;> simp

theorem lockedStep_falsy (t : Tally) (el : LockedItem) (h : truthy el.dataEventId = false) :
    lockedStep t el = t :=
  addParticipation_falsy t _ _ _ h

theorem ticketStep_falsy (t : Tally) (i : TicketInput)
    (h : truthy (ticketEventId i.name) = false) : ticketStep t i = t := by
  unfold ticketStep
  simp only [registerId_falsy t _ h, addParticipation_falsy t _ _ _ h]
  split <;> rfl

theorem noTicketStep_falsy (t : Tally) (i : NoTicketInput)
    (h : truthy (some i.value) = false) : noTicketStep t i = t := by
  unfold noTicketStep
  simp only [registerId_falsy t _ h, addParticipation_falsy t _ _ _ h]
  split <;> rfl

theorem sortedSelection_length (s : FormState) :
    (sortedSelection s).length = (tally s).currentSelection.length :=
  (sortAscending_perm _).length_eq

theorem calculateTotal_of_no_discount (s : FormState) (v : View)
    (h : (tally s).currentSelection ≠ []) (h0 : discountAmount s = 0) :
    calculateTotal s v
      = { v with
          priceContainerDisplay := "block"
          priceDisplayText := toString (finalPrice s)
          discountBadgeDisplay := "none"
          detailsDisplayText := plainDetails (tally s).currentSelection.length } := by
  have hpos := sortedSelection_length_pos s h
  unfold calculateTotal
  simp only [hpos, if_true, h0, Nat.lt_irrefl, if_false]
  rw [sortedSelection_length]

theorem calculateTotal_of_discount (s : FormState) (v : View)
    (h : (tally s).currentSelection ≠ []) (hd : discountAmount s > 0) :
    calculateTotal s v
      = { priceContainerDisplay := "block"
          priceDisplayText := toString (finalPrice s)
          discountBadgeDisplay := "inline-block"
          discountBadgeText := discountText s
          detailsDisplayText :=
            discountDetails (currentTotal s) (discountAmount s) s.lockedItems.length } := by
  have hpos := sortedSelection_length_pos s h
  unfold calculateTotal
  simp only [hpos, if_true, hd]

theorem calculateTotal_of_empty (s : FormState) (v : View)
    (h : (tally s).currentSelection = []) :
    calculateTotal s v = { v with priceContainerDisplay := "none" } := by
  have h0 : sortedSelection s = [] := by
    unfold sortedSelection
    rw [h]
    rfl
  unfold calculateTotal
  simp [h0]

theorem panel_shown (s : FormState) (v : View) (h : (tally s).currentSelection ≠ []) :
    (calculateTotal s v).priceContainerDisplay = "block" := by
  rcases Nat.eq_zero_or_pos (discountAmount s) with h0 | hd
  · rw [calculateTotal_of_no_discount s v h h0]
  · rw [calculateTotal_of_discount s v h hd]

theorem sortedSelection_sum (s : FormState) :
    (sortedSelection s).sum = currentTotal s := by
  rw [currentTotal_eq_sum]
  exact (sortAscending_perm _).sum_eq

theorem eq_nil_of_sum_eq_zero (l : List Nat) (hpos : ∀ p ∈ l, 0 < p) (h : l.sum = 0) :
    l = [] := by
  cases l with
  | nil => rfl
  | cons a l =>
    have := hpos a (List.mem_cons_self a l)
    simp only [List.sum_cons] at h
    omega

theorem sortedSelection_pos (s : FormState) : ∀ p ∈ sortedSelection s, 0 < p := by
  intro p hp
  rcases mem_sortedSelection s p hp with h | h <;> simp [h, PRICE_TICKET, PRICE_NO_TICKET]

theorem discount_of_empty (s : FormState) (h : (tally s).currentSelection = []) :
    discount s = (0, "") := by
  have h0 : sortedSelection s = [] := by
    unfold sortedSelection
    rw [h]
    rfl
  unfold discount
  rw [h0, discountOf_nil]

theorem eligibility_congr (t t' : Tally)
    (hids : ∀ x, x ∈ t.allEventIds ↔ x ∈ t'.allEventIds)
    (hcounts : ∀ k, t.participationCounts k = t'.participationCounts k) :
    eligibility t = eligibility t' := by
  have hg : ∀ k, getProp t.participationCounts k = getProp t'.participationCounts k := by
    intro k
    unfold getProp
    rw [hcounts k]
  have hnil : t.allEventIds ≠ [] ↔ t'.allEventIds ≠ [] := by
    constructor
    · intro h
      obtain ⟨a, l, hl⟩ := List.exists_cons_of_ne_nil h
      exact List.ne_nil_of_mem ((hids a).1 (by rw [hl]; exact List.mem_cons_self a l))
    · intro h
      obtain ⟨a, l, hl⟩ := List.exists_cons_of_ne_nil h
      exact List.ne_nil_of_mem ((hids a).2 (by rw [hl]; exact List.mem_cons_self a l))
  have h1 : (eligibility t).1 = (eligibility t').1 := by
    rw [Bool.eq_iff_iff, eligibility_fst, eligibility_fst, hnil]
    constructor
    · rintro ⟨hn, h⟩
      exact ⟨hn, fun id hid => hg id ▸ h id ((hids id).2 hid)⟩
    · rintro ⟨hn, h⟩
      exact ⟨hn, fun id hid => (hg id).symm ▸ h id ((hids id).1 hid)⟩
  have h2 : (eligibility t).2 = (eligibility t').2 := by
    rw [Bool.eq_iff_iff, eligibility_snd, eligibility_snd, hnil]
    constructor
    · rintro ⟨hn, h⟩
      exact ⟨hn, fun id hid => hg id ▸ h id ((hids id).2 hid)⟩
    · rintro ⟨hn, h⟩
      exact ⟨hn, fun id hid => (hg id).symm ▸ h id ((hids id).1 hid)⟩
  exact Prod.ext h1 h2

/-- For a form none of whose registered ids names an inherited member, with a
non-empty new-selection list: the series bonus is the rule applied exactly when
every registered id has at least 1 participation and some registered id has
fewer than 2, and the discount is then the lowest new-selection price. -/
theorem series_bonus_iff_of_plain_ids (s : FormState)
    (hsel : (tally s).currentSelection ≠ [])
    (hplain : ∀ id ∈ (tally s).allEventIds, id ∉ objectPrototypeKeys) :
    (discountText s = SERIES_BONUS ↔
        (∀ id ∈ (tally s).allEventIds, 1 ≤ participations s id)
          ∧ ∃ id ∈ (tally s).allEventIds, participations s id < 2)
      ∧ (discountText s = SERIES_BONUS →
          discountAmount s ∈ (tally s).currentSelection
            ∧ ∀ p ∈ (tally s).currentSelection, discountAmount s ≤ p) := by
  have hiff := discountText_eq_series_iff s hsel
  constructor
  · rw [hiff]
    constructor
    · rintro ⟨hd, hp⟩
      obtain ⟨hne, h1⟩ := (participatedInAll_iff s).1 hp
      refine ⟨fun id hid => (h1 id hid).resolve_left (hplain id hid), ?_⟩
      by_contra hc
      push_neg at hc
      have := (doubleParticipatedInAll_iff s).2 ⟨hne, fun id hid => Or.inr (hc id hid)⟩
      rw [hd] at this
      exact Bool.false_ne_true this
    · rintro ⟨h1, id, hid, hlt⟩
      have hne : (tally s).allEventIds ≠ [] := List.ne_nil_of_mem hid
      refine ⟨?_, (participatedInAll_iff s).2 ⟨hne, fun id hid => Or.inr (h1 id hid)⟩⟩
      cases hd : doubleParticipatedInAll s
      · rfl
      · have := (((doubleParticipatedInAll_iff s).1 hd).2 id hid).resolve_left (hplain id hid)
        omega
  · intro ht
    obtain ⟨hd, hp⟩ := hiff.1 ht
    obtain ⟨a, l, hl, h⟩ := discount_of_single s hsel hd hp
    have hamt : discountAmount s = a := by simp [discountAmount, h]
    have hsorted : List.Sorted (· ≤ ·) (a :: l) := hl ▸ sortAscending_sorted _
    have hperm : (a :: l).Perm (tally s).currentSelection := hl ▸ sortAscending_perm _
    rw [hamt]
    refine ⟨hperm.mem_iff.mp (List.mem_cons_self a l), ?_⟩
    intro p hp'
    exact sorted_head_le a l hsorted p (hperm.mem_iff.mpr hp')

/-- If no event id is registered, or some registered id that names no
inherited member has no participation, there is no discount and the final
price is the running total. -/
theorem no_discount_of_uncovered_plain_id (s : FormState)
    (h : (tally s).allEventIds = []
      ∨ ∃ id ∈ (tally s).allEventIds, id ∉ objectPrototypeKeys ∧ participations s id = 0) :
    discountAmount s = 0 ∧ discountText s = "" ∧ finalPrice s = (currentTotal s : Int) := by
  have hp : participatedInAll s = false := by
    cases hp : participatedInAll s
    · rfl
    · obtain ⟨hne, h1⟩ := (participatedInAll_iff s).1 hp
      rcases h with h | ⟨id, hid, hplain, h0⟩
      · exact absurd h hne
      · have := (h1 id hid).resolve_left hplain
        omega
  have hd : doubleParticipatedInAll s = false := by
    cases hd : doubleParticipatedInAll s
    · rfl
    · obtain ⟨hne, h2⟩ := (doubleParticipatedInAll_iff s).1 hd
      rcases h with h | ⟨id, hid, hplain, h0⟩
      · exact absurd h hne
      · have := (h2 id hid).resolve_left hplain
        omega
  have hdisc := discount_of_none s hd hp
  simp [discountAmount, discountText, finalPrice, hdisc]

/-- For a registered id that names no inherited member, the count read in
the eligibility loop is the number of locked items with that id plus the number
of checked ticket inputs with that id plus the number of checked no-ticket
inputs with that id. -/
theorem count_of_plain_registered_id (s : FormState) (e : String)
    (he : e ∈ (tally s).allEventIds) (hplain : e ∉ objectPrototypeKeys) :
    (getProp (tally s).participationCounts e).orZero
      = JSValue.number
          (s.lockedItems.countP (fun el => decide (el.dataEventId = some e))
            + s.ticketInputs.countP
                (fun i => i.checked && decide (ticketEventId i.name = some e))
            + s.noTicketInputs.countP (fun i => i.checked && decide (i.value = e))) := by
  have hne : e ≠ "" := ((mem_allEventIds s e).1 he).1
  rw [count_of_plain s e hplain, recorded_eq_participations s e hne]
  rfl

/-- For a form none of whose registered ids names an inherited member: when
the new selection is non-empty, every registered id has at least 1
participation and some registered id has fewer than 2, the series bonus
applies and the discount is 23 if a ticket input with a non-empty event id is
checked and 27 otherwise, the first entry of the sorted new-selection list. -/
theorem series_bonus_amount_of_plain_ids (s : FormState)
    (hsel : (tally s).currentSelection ≠ [])
    (hplain : ∀ id ∈ (tally s).allEventIds, id ∉ objectPrototypeKeys)
    (hall : ∀ id ∈ (tally s).allEventIds, 1 ≤ participations s id)
    (hnot : ∃ id ∈ (tally s).allEventIds, participations s id < 2) :
    discountText s = SERIES_BONUS
      ∧ ((∃ i ∈ s.ticketInputs, i.checked = true ∧ truthy (ticketEventId i.name) = true) →
          discountAmount s = 23)
      ∧ ((¬ ∃ i ∈ s.ticketInputs, i.checked = true ∧ truthy (ticketEventId i.name) = true) →
          discountAmount s = 27)
      ∧ (∃ rest, sortedSelection s = discountAmount s :: rest)
      ∧ discountAmount s ∈ (tally s).currentSelection
      ∧ ∀ p ∈ (tally s).currentSelection, discountAmount s ≤ p := by
  obtain ⟨id, hid, hlt⟩ := hnot
  have hne : (tally s).allEventIds ≠ [] := List.ne_nil_of_mem hid
  have hp : participatedInAll s = true :=
    (participatedInAll_iff s).2 ⟨hne, fun id hid => Or.inr (hall id hid)⟩
  have hd : doubleParticipatedInAll s = false := by
    cases hd : doubleParticipatedInAll s
    · rfl
    · have := (((doubleParticipatedInAll_iff s).1 hd).2 id hid).resolve_left (hplain id hid)
      omega
  obtain ⟨a, l, hl, hdisc⟩ := discount_of_single s hsel hd hp
  have hamt : discountAmount s = a := by simp [discountAmount, hdisc]
  have hsorted : List.Sorted (· ≤ ·) (a :: l) := hl ▸ sortAscending_sorted _
  have hperm : (a :: l).Perm (tally s).currentSelection := hl ▸ sortAscending_perm _
  have hmem : a ∈ (tally s).currentSelection := hperm.mem_iff.mp (List.mem_cons_self a l)
  have hmin : ∀ p ∈ (tally s).currentSelection, a ≤ p := fun p hp' =>
    sorted_head_le a l hsorted p (hperm.mem_iff.mpr hp')
  have hprice := mem_currentSelection s a hmem
  rw [hamt]
  refine ⟨by simp [discountText, hdisc], ?_, ?_, ⟨l, hl⟩, hmem, hmin⟩
  · rintro ⟨i, hi, hc, ht⟩
    have hcount : 0 < s.ticketInputs.countP TicketInput.selected :=
      List.countP_pos_iff.mpr ⟨i, hi, by simp [TicketInput.selected, hc, ht]⟩
    have h23 : PRICE_TICKET ∈ (tally s).currentSelection := by
      rw [tally_currentSelection, List.mem_append]
      exact Or.inl (List.mem_replicate.mpr ⟨by omega, rfl⟩)
    have := hmin _ h23
    rcases hprice with h | h <;> simp only [h, PRICE_TICKET, PRICE_NO_TICKET] at this ⊢
    omega
  · intro hno
    have hcount : s.ticketInputs.countP TicketInput.selected = 0 := by
      rw [List.countP_eq_zero]
      intro i hi hs
      simp only [TicketInput.selected, Bool.and_eq_true] at hs
      exact hno ⟨i, hi, hs.1, hs.2⟩
    rw [tally_currentSelection, hcount] at hmem
    simp only [List.replicate_zero, List.nil_append] at hmem
    exact List.eq_of_mem_replicate hmem

/-! ## The claims -/

/-- C1. When the new-selection list is non-empty and every registered event id
has at least 2 participations (locked items and checked inputs with that id),
the double bonus is chosen: the discount is the sum of the two lowest
new-selection prices, or the single price when there is exactly one new
selection, and with two or more selections it differs from the single-bonus
amount (the lowest price alone). The sorted list is the selection in ascending
order. -/
theorem double_bonus_discount (s : FormState)
    (hsel : (tally s).currentSelection ≠ [])
    (hall : ∀ id ∈ (tally s).allEventIds, 2 ≤ participations s id) :
    List.Sorted (· ≤ ·) (sortedSelection s)
      ∧ (sortedSelection s).Perm (tally s).currentSelection
      ∧ discountText s = DOUBLE_BONUS
      ∧ discountAmount s = ((sortedSelection s).take 2).sum
      ∧ (∀ p, sortedSelection s = [p] → discountAmount s = p)
      ∧ (∀ a b rest, sortedSelection s = a :: b :: rest →
          discountAmount s = a + b ∧ discountAmount s ≠ a) := by
  have hd : doubleParticipatedInAll s = true :=
    (doubleParticipatedInAll_iff s).2
      ⟨allEventIds_ne_nil s hsel, fun id hid => Or.inr (hall id hid)⟩
  have hdisc := discount_of_double s hsel hd
  have hamt : discountAmount s = ((sortedSelection s).take 2).sum := by
    simp [discountAmount, hdisc]
  refine ⟨sortAscending_sorted _, sortAscending_perm _, ?_, hamt, ?_, ?_⟩
  · simp [discountText, hdisc]
  · intro p hp
    rw [hamt, hp]
    simp
  · intro a b rest hl
    have hb : b = PRICE_TICKET ∨ b = PRICE_NO_TICKET :=
      mem_sortedSelection s b (by rw [hl]; simp)
    have hsum : discountAmount s = a + b := by
      rw [hamt, hl]
      simp
    refine ⟨hsum, ?_⟩
    rw [hsum]
    rcases hb with hb | hb <;> simp [hb, PRICE_TICKET, PRICE_NO_TICKET]

/-- C1 at the scenario of the specification: the discount is 23, the final
price 0 and the label the double bonus. -/
theorem double_bonus_discount_witness :
    (tally scenarioDouble).currentSelection ≠ []
      ∧ (∀ id ∈ (tally scenarioDouble).allEventIds, 2 ≤ participations scenarioDouble id)
      ∧ discountText scenarioDouble = DOUBLE_BONUS
      ∧ discountAmount scenarioDouble = 23
      ∧ finalPrice scenarioDouble = 0 := by
  have h1 : (tally scenarioDouble).currentSelection ≠ [] := by decide
  have h2 : ∀ id ∈ (tally scenarioDouble).allEventIds,
      2 ≤ participations scenarioDouble id := by decide
  have h := double_bonus_discount scenarioDouble h1 h2
  exact ⟨h1, h2, h.2.2.1, h.2.2.2.2.1 23 (by decide), by decide⟩

/-- C2 fails on the code at two events with the ids `constructor` and
`valueOf`, each covered only by one checked ticket input. Every registered id
has one participation and none has two, so the claim gives the single bonus
with total 46, discount 23 and final price 23. The code reads the counts of
these ids from the members the object inherits, gets strings that are neither
below 1 nor below 2, keeps `doubleParticipatedInAll` and applies the double
bonus: discount 46, final price 0. -/
theorem series_bonus_missed_at_inherited_keys :
    (tally inheritedPair).currentSelection ≠ []
      ∧ (tally inheritedPair).allEventIds = ["constructor", "valueOf"]
      ∧ (∀ id ∈ (tally inheritedPair).allEventIds, 1 ≤ participations inheritedPair id)
      ∧ (∃ id ∈ (tally inheritedPair).allEventIds, participations inheritedPair id < 2)
      ∧ getProp (tally inheritedPair).participationCounts "constructor" = JSValue.text 1
      ∧ getProp (tally inheritedPair).participationCounts "valueOf" = JSValue.text 1
      ∧ doubleParticipatedInAll inheritedPair = true
      ∧ discountText inheritedPair = DOUBLE_BONUS
      ∧ discountText inheritedPair ≠ SERIES_BONUS
      ∧ currentTotal inheritedPair = 46
      ∧ discountAmount inheritedPair = 46
      ∧ finalPrice inheritedPair = 0 := by
  decide

/-- C3 fails on the code at a form with a checked ticket input for event `1`
and an unchecked ticket input whose event id is `toString`. The id `toString`
is registered and has no participation, so the claim gives discount 0 and
final price 23. The code looks the count up, finds the inherited function,
which is neither below 1 nor below 2, keeps `participatedInAll` and gives the
series bonus: discount 23, final price 0. -/
theorem uncovered_inherited_key_gets_discount :
    (tally inheritedUnchecked).allEventIds = ["1", "toString"]
      ∧ participations inheritedUnchecked "toString" = 0
      ∧ (tally inheritedUnchecked).participationCounts "toString" = none
      ∧ getProp (tally inheritedUnchecked).participationCounts "toString" = JSValue.member
      ∧ participatedInAll inheritedUnchecked = true
      ∧ currentTotal inheritedUnchecked = 23
      ∧ discountText inheritedUnchecked = SERIES_BONUS
      ∧ discountAmount inheritedUnchecked = 23
      ∧ finalPrice inheritedUnchecked = 0 := by
  decide

/-- C4, as stated, fails: a checked ticket input whose name carries an empty
event id adds nothing, so the total is 0 and not 23, and the new-selection
list is empty though one input is checked. -/
theorem checked_inputs_total_counterexample :
    emptyIdChecked.ticketInputs.countP (fun i => i.checked) = 1
      ∧ emptyIdChecked.noTicketInputs.countP (fun i => i.checked) = 0
      ∧ currentTotal emptyIdChecked = 0
      ∧ currentTotal emptyIdChecked
          ≠ PRICE_TICKET * emptyIdChecked.ticketInputs.countP (fun i => i.checked)
            + PRICE_NO_TICKET * emptyIdChecked.noTicketInputs.countP (fun i => i.checked)
      ∧ (tally emptyIdChecked).currentSelection.length
          ≠ emptyIdChecked.ticketInputs.countP (fun i => i.checked)
            + emptyIdChecked.noTicketInputs.countP (fun i => i.checked) := by
  decide

/-- C4, amended. Each checked ticket input with a non-empty event id adds the
ticket price and each checked no-ticket input with a non-empty event id adds
the no-ticket price, to the running total and to the new-selection list;
locked items add nothing to either. -/
theorem selected_inputs_total (s : FormState) :
    currentTotal s
        = PRICE_TICKET
            * s.ticketInputs.countP (fun i => i.checked && truthy (ticketEventId i.name))
          + PRICE_NO_TICKET
            * s.noTicketInputs.countP (fun i => i.checked && truthy (some i.value))
      ∧ (tally s).currentSelection
          = List.replicate
              (s.ticketInputs.countP (fun i => i.checked && truthy (ticketEventId i.name)))
              PRICE_TICKET
            ++ List.replicate
              (s.noTicketInputs.countP (fun i => i.checked && truthy (some i.value)))
              PRICE_NO_TICKET
      ∧ (tally s).currentSelection.length
          = s.ticketInputs.countP (fun i => i.checked && truthy (ticketEventId i.name))
            + s.noTicketInputs.countP (fun i => i.checked && truthy (some i.value))
      ∧ PRICE_TICKET = 23 ∧ PRICE_NO_TICKET = 27
      ∧ ∀ locked : List LockedItem,
          currentTotal { s with lockedItems := locked } = currentTotal s
            ∧ (tally { s with lockedItems := locked }).currentSelection
                = (tally s).currentSelection := by
  have hsel := tally_currentSelection s
  have htot := tally_currentTotal s
  refine ⟨htot, hsel, ?_, rfl, rfl, ?_⟩
  · rw [hsel]
    simp only [List.length_append, List.length_replicate]
    rfl
  · intro locked
    constructor
    · unfold currentTotal
      rw [tally_currentTotal, tally_currentTotal]
    · rw [tally_currentSelection, tally_currentSelection]

/-- C5. If no ticket input and no no-ticket input is checked, the price panel
is hidden, whatever the locked items; if the new-selection list is non-empty,
the panel is shown. -/
theorem panel_visibility (s : FormState) (v : View) :
    ((∀ i ∈ s.ticketInputs, i.checked = false) → (∀ i ∈ s.noTicketInputs, i.checked = false) →
        (calculateTotal s v).priceContainerDisplay = "none")
      ∧ ((tally s).currentSelection ≠ [] →
        (calculateTotal s v).priceContainerDisplay = "block") := by
  constructor
  · intro h1 h2
    have h : sortedSelection s = [] := by
      unfold sortedSelection
      rw [currentSelection_eq_nil_of_unchecked s h1 h2]
      rfl
    simp [calculateTotal, h]
  · intro h
    have hpos := sortedSelection_length_pos s h
    unfold calculateTotal
    simp only [hpos, if_true]
    split <;> rfl

/-- C5 at a form with locked items only (hidden) and at the double-bonus
scenario (shown). -/
theorem panel_visibility_witness :
    (calculateTotal scenarioLockedOnly blankView).priceContainerDisplay = "none"
      ∧ (calculateTotal scenarioDouble blankView).priceContainerDisplay = "block" :=
  ⟨(panel_visibility scenarioLockedOnly blankView).1 (by decide) (by decide),
    (panel_visibility scenarioDouble blankView).2 (by decide)⟩

/-- C6. With a non-empty new-selection list, the price text is the running
total, which is the sum of the new-selection prices, minus the discount chosen
by the bonus rules. -/
theorem price_text_is_total_minus_discount (s : FormState) (v : View)
    (h : (tally s).currentSelection ≠ []) :
    (calculateTotal s v).priceDisplayText
        = toString (((tally s).currentSelection.sum : Int) - (discountAmount s : Int))
      ∧ currentTotal s = (tally s).currentSelection.sum
      ∧ finalPrice s = ((tally s).currentSelection.sum : Int) - (discountAmount s : Int) := by
  have hsum := currentTotal_eq_sum s
  have hfin : finalPrice s = ((tally s).currentSelection.sum : Int) - (discountAmount s : Int) := by
    unfold finalPrice
    rw [hsum]
  refine ⟨?_, hsum, hfin⟩
  have hpos := sortedSelection_length_pos s h
  rw [← hfin]
  unfold calculateTotal
  simp only [hpos, if_true]
  split <;> rfl

/-- C6 at the series-bonus scenario: the price text is "23". -/
theorem price_text_is_total_minus_discount_witness :
    (tally scenarioSeries).currentSelection ≠ []
      ∧ (calculateTotal scenarioSeries blankView).priceDisplayText = "23" := by
  have h : (tally scenarioSeries).currentSelection ≠ [] := by decide
  refine ⟨h, ?_⟩
  rw [(price_text_is_total_minus_discount scenarioSeries blankView h).1]
  decide

/-- C7. Running `calculateTotal` twice on an unchanged form state leaves the
view as one run leaves it. -/
theorem calculateTotal_idempotent (s : FormState) (v : View) :
    calculateTotal s (calculateTotal s v) = calculateTotal s v := by
  unfold calculateTotal
  simp only []
  split_ifs <;> rfl

/-- C8, as stated, fails: the value `""` of a no-ticket input is among the ids
the elements carry, and it is not registered. -/
theorem registered_ids_counterexample :
    (tally emptyValueInput).allEventIds = []
      ∧ "" ∈ emptyValueInput.noTicketInputs.map NoTicketInput.value
      ∧ ¬ (∀ e : String, e ∈ (tally emptyValueInput).allEventIds ↔
            (LockedItem.mk (some e) ∈ emptyValueInput.lockedItems
              ∨ (∃ i ∈ emptyValueInput.ticketInputs, ticketEventId i.name = some e)
              ∨ (∃ i ∈ emptyValueInput.noTicketInputs, i.value = e))) := by
  refine ⟨by decide, by decide, ?_⟩
  intro h
  have h1 : "" ∈ (tally emptyValueInput).allEventIds :=
    (h "").2 (Or.inr (Or.inr ⟨⟨"", false⟩, by decide, rfl⟩))
  revert h1
  decide

/-- C8, amended. The registered event ids are the non-empty ids carried by the
locked items (`data-event-id`), the ticket inputs (the id segment of the name)
and the no-ticket inputs (the value); a missing or empty id is not registered.
The set, in its insertion order, is the same for two form states that differ
only in which inputs are checked. -/
theorem registered_ids_are_nonempty_carried_ids :
    (∀ (s : FormState) (e : String), e ∈ (tally s).allEventIds ↔
        e ≠ "" ∧
          (LockedItem.mk (some e) ∈ s.lockedItems
            ∨ (∃ i ∈ s.ticketInputs, ticketEventId i.name = some e)
            ∨ (∃ i ∈ s.noTicketInputs, i.value = e)))
      ∧ (∀ s s' : FormState, s.lockedItems = s'.lockedItems →
          s.ticketInputs.map TicketInput.name = s'.ticketInputs.map TicketInput.name →
          s.noTicketInputs.map NoTicketInput.value = s'.noTicketInputs.map NoTicketInput.value →
          (tally s).allEventIds = (tally s').allEventIds) := by
  constructor
  · intro s e
    rw [mem_allEventIds, some_mem_carriedIds]
  · intro s s' h1 h2 h3
    rw [tally_allEventIds, tally_allEventIds]
    unfold carriedIds
    rw [h1, h2, h3]

/-- C8 at the series scenario, checked and unchecked: both register `1` and
`2`. -/
theorem registered_ids_are_nonempty_carried_ids_witness :
    (tally scenarioSeries).allEventIds = (tally scenarioSeriesUnchecked).allEventIds
      ∧ (tally scenarioSeries).allEventIds = ["1", "2"] := by
  refine ⟨registered_ids_are_nonempty_carried_ids.2 scenarioSeries scenarioSeriesUnchecked
    (by decide) (by decide) (by decide), by decide⟩

/-- C9. The `beforeunload` listener calls `preventDefault` and sets
`returnValue` if and only if `isDirty` is true and `isSubmitting` is false; in
every other case it leaves the event as it was. -/
theorem beforeunload_prompts_iff (isDirty isSubmitting : Bool) (e : UnloadEvent) :
    (isDirty = true ∧ isSubmitting = false →
        beforeunload isDirty isSubmitting e = { defaultPrevented := true, returnValue := some "" })
      ∧ (¬ (isDirty = true ∧ isSubmitting = false) → beforeunload isDirty isSubmitting e = e)
      ∧ ((beforeunload isDirty isSubmitting { defaultPrevented := false, returnValue := none }).defaultPrevented
            = true ↔ isDirty = true ∧ isSubmitting = false)
      ∧ ((beforeunload isDirty isSubmitting { defaultPrevented := false, returnValue := none }).returnValue
            = some "" ↔ isDirty = true ∧ isSubmitting = false) := by
  cases isDirty <;> cases isSubmitting <;> simp [beforeunload]

/-- C9 at a dirty page that is not submitting, and at a dirty page that is. -/
theorem beforeunload_prompts_iff_witness :
    beforeunload true false { defaultPrevented := false, returnValue := none }
        = { defaultPrevented := true, returnValue := some "" }
      ∧ beforeunload true true { defaultPrevented := false, returnValue := none }
        = { defaultPrevented := false, returnValue := none } :=
  ⟨(beforeunload_prompts_iff true false _).1 ⟨rfl, rfl⟩,
    (beforeunload_prompts_iff true true _).2.1 (by decide)⟩

/-- C10. The flag `isDirty` starts false; a checkbox change or a label click
sets it; no event sets it back; a run of `calculateTotal` leaves it as it is.
After a sequence of events from the start it is true exactly when the sequence
holds a checkbox change or a label click, so the initial and the deferred
recompute leave it false. -/
theorem isDirty_set_once :
    (∀ v : View, (Page.init v).isDirty = false)
      ∧ (∀ p : Page, (step p .checkboxChange).isDirty = true
          ∧ (step p .labelClick).isDirty = true)
      ∧ (∀ (p : Page) (e : PageEvent), p.isDirty = true → (step p e).isDirty = true)
      ∧ (∀ (p : Page) (es : List PageEvent), p.isDirty = true → (run p es).isDirty = true)
      ∧ (∀ (p : Page) (dom : FormState), (step p (.recompute dom)).isDirty = p.isDirty)
      ∧ (∀ (v : View) (es : List PageEvent), (run (Page.init v) es).isDirty = true ↔
          ∃ e ∈ es, e = PageEvent.checkboxChange ∨ e = PageEvent.labelClick)
      ∧ (∀ (v : View) (dom1 dom2 : FormState),
          (run (Page.init v) [.recompute dom1, .recompute dom2]).isDirty = false) := by
  refine ⟨fun _ => rfl, fun p => ⟨rfl, rfl⟩, ?_, ?_, fun _ _ => rfl, ?_, fun _ _ _ => rfl⟩
  · intro p e h
    rw [step_isDirty, h]
    rfl
  · intro p es h
    exact (run_isDirty es p).2 (Or.inl h)
  · intro v es
    rw [run_isDirty]
    simp [Page.init]

/-- C10 on a page that loads, recomputes, sees a checkbox change and then a
deferred recompute, a submit click and a cancel click: the flag stays set. -/
theorem isDirty_set_once_witness :
    (run (Page.init blankView) [.recompute scenarioSeries]).isDirty = false
      ∧ (run (Page.init blankView) [.recompute scenarioSeries, .checkboxChange]).isDirty = true
      ∧ (run (run (Page.init blankView) [.recompute scenarioSeries, .checkboxChange])
          [.recompute scenarioDouble, .submitClick, .cancelClick false, .beforeUnload]).isDirty
          = true := by
  have h : (run (Page.init blankView) [.recompute scenarioSeries, .checkboxChange]).isDirty
      = true := by decide
  exact ⟨by decide, h, isDirty_set_once.2.2.2.1 _ _ h⟩

/-- C11. Once a submit-control click or a form submit event has occurred, a
later `beforeunload` event does not prompt, whatever events come before or
after the submit action; as long as no submit action has occurred, a
`beforeunload` event that follows a checkbox change does prompt. -/
theorem no_prompt_after_submit :
    (∀ (p : Page) (es1 es2 : List PageEvent) (e : PageEvent),
        e = PageEvent.submitClick ∨ e = PageEvent.formSubmit →
          prompts (run p (es1 ++ e :: es2)) = false
            ∧ beforeunload (run p (es1 ++ e :: es2)).isDirty
                (run p (es1 ++ e :: es2)).isSubmitting
                { defaultPrevented := false, returnValue := none }
              = { defaultPrevented := false, returnValue := none })
      ∧ (∀ (v : View) (es : List PageEvent),
          (∀ e ∈ es, e ≠ PageEvent.submitClick ∧ e ≠ PageEvent.formSubmit) →
          PageEvent.checkboxChange ∈ es →
            prompts (run (Page.init v) es) = true
              ∧ beforeunload (run (Page.init v) es).isDirty (run (Page.init v) es).isSubmitting
                  { defaultPrevented := false, returnValue := none }
                = { defaultPrevented := true, returnValue := some "" }) := by
  constructor
  · intro p es1 es2 e he
    have hsub : (run p (es1 ++ e :: es2)).isSubmitting = true :=
      (run_isSubmitting _ p).2 (Or.inr ⟨e, by simp, he⟩)
    constructor
    · cases h : prompts (run p (es1 ++ e :: es2))
      · rfl
      · have := ((prompts_iff _).1 h).2
        rw [hsub] at this
        exact absurd this (by decide)
    · rw [hsub]
      simp [beforeunload]
  · intro v es hno hchg
    have hd : (run (Page.init v) es).isDirty = true :=
      (run_isDirty es _).2 (Or.inr ⟨_, hchg, Or.inl rfl⟩)
    have hs : (run (Page.init v) es).isSubmitting = false := by
      cases h : (run (Page.init v) es).isSubmitting
      · rfl
      · rcases (run_isSubmitting es _).1 h with h0 | ⟨e, he, h1 | h1⟩
        · exact absurd h0 (by simp [Page.init])
        · exact absurd h1 (hno e he).1
        · exact absurd h1 (hno e he).2
    refine ⟨(prompts_iff _).2 ⟨hd, hs⟩, ?_⟩
    rw [hd, hs]
    simp [beforeunload]

/-- C11 on one page: a toggle, then an unload attempt that prompts; after a
submit click and more toggles, the unload attempt does not prompt. -/
theorem no_prompt_after_submit_witness :
    prompts (run (Page.init blankView) [.recompute scenarioSeries, .checkboxChange]) = true
      ∧ prompts (run (Page.init blankView)
          ([.recompute scenarioSeries, .checkboxChange] ++ .submitClick
            :: [.labelClick, .checkboxChange])) = false :=
  ⟨(no_prompt_after_submit.2 blankView [.recompute scenarioSeries, .checkboxChange]
      (by decide) (by decide)).1,
    (no_prompt_after_submit.1 (Page.init blankView) [.recompute scenarioSeries, .checkboxChange]
      [.labelClick, .checkboxChange] .submitClick (Or.inl rfl)).1⟩

/-- C12. A click on the cancel button is aborted (`preventDefault`) if and only
if `isDirty` is true and the user declines the confirmation; the confirmation
is asked only when `isDirty` is true, and when `isDirty` is false the click
goes through without a prompt. -/
theorem cancel_aborts_iff (isDirty answer : Bool) :
    ((cancelClick isDirty answer).defaultPrevented = true ↔ isDirty = true ∧ answer = false)
      ∧ ((cancelClick isDirty answer).prompted = true ↔ isDirty = true)
      ∧ (isDirty = false →
          cancelClick isDirty answer = { prompted := false, defaultPrevented := false }) := by
  cases isDirty <;> cases answer <;> simp [cancelClick]

/-- C12 at a clean page, whatever the answer would be. -/
theorem cancel_aborts_iff_witness :
    cancelClick false false = { prompted := false, defaultPrevented := false }
      ∧ cancelClick false true = { prompted := false, defaultPrevented := false }
      ∧ cancelClick true false = { prompted := true, defaultPrevented := true }
      ∧ cancelClick true true = { prompted := true, defaultPrevented := false } :=
  ⟨(cancel_aborts_iff false false).2.2 rfl, (cancel_aborts_iff false true).2.2 rfl,
    by decide, by decide⟩

/-- C13. An element whose event id is missing or empty is skipped: the running
total, the new-selection list, the per-event counts and the set of registered
ids (the four fields of `tally`) are those of the form state without the
element, whether the element is checked or not. The function is total, so no
error is raised. -/
theorem falsy_element_skipped (s : FormState) :
    (∀ (l1 l2 : List LockedItem) (x : LockedItem), truthy x.dataEventId = false →
        s.lockedItems = l1 ++ x :: l2 →
        tally s = tally { s with lockedItems := l1 ++ l2 })
      ∧ (∀ (l1 l2 : List TicketInput) (x : TicketInput),
          truthy (ticketEventId x.name) = false →
          s.ticketInputs = l1 ++ x :: l2 →
          tally s = tally { s with ticketInputs := l1 ++ l2 })
      ∧ (∀ (l1 l2 : List NoTicketInput) (x : NoTicketInput), x.value = "" →
          s.noTicketInputs = l1 ++ x :: l2 →
          tally s = tally { s with noTicketInputs := l1 ++ l2 }) := by
  refine ⟨?_, ?_, ?_⟩
  · intro l1 l2 x hx hs
    simp only [tally, hs, List.foldl_append, List.foldl_cons, lockedStep_falsy _ x hx]
  · intro l1 l2 x hx hs
    simp only [tally, hs, List.foldl_append, List.foldl_cons, ticketStep_falsy _ x hx]
  · intro l1 l2 x hx hs
    have hx' : truthy (some x.value) = false := by simp [truthy, hx]
    simp only [tally, hs, List.foldl_append, List.foldl_cons, noTicketStep_falsy _ x hx']

/-- C13 at a form with one malformed element of each kind, two of them
checked: removing the three changes none of the four aggregates. -/
theorem falsy_element_skipped_witness :
    tally scenarioMalformed = tally scenarioMalformedRemoved
      ∧ currentTotal scenarioMalformed = 23
      ∧ (tally scenarioMalformed).currentSelection = [23]
      ∧ (tally scenarioMalformed).allEventIds = ["1"]
      ∧ (tally scenarioMalformed).participationCounts "1" = some (JSValue.number 2)
      ∧ (tally scenarioMalformed).participationCounts "" = none := by
  have h1 := (falsy_element_skipped scenarioMalformed).1 [⟨some "1"⟩] [] ⟨none⟩ rfl rfl
  have h2 := (falsy_element_skipped
    { scenarioMalformed with lockedItems := [⟨some "1"⟩] }).2.1
    [] [⟨"group_1", true⟩] ⟨"group_", true⟩ (by decide) rfl
  have h3 := (falsy_element_skipped
    { scenarioMalformed with lockedItems := [⟨some "1"⟩], ticketInputs := [⟨"group_1", true⟩] }).2.2
    [⟨"1", false⟩] [] ⟨"", true⟩ rfl rfl
  exact ⟨h1.trans (h2.trans h3), by decide, by decide, by decide, by decide, by decide⟩

/-- C14 fails on the code at a form with one checked ticket input whose
event id is `constructor`. The id is registered and the form has one checked
input with it and nothing else, so the claim gives the count 1. The code
computes `(participationCounts[eventId] || 0) + 1` on the inherited function
and stores a string, the text of the function followed by `1`, which is not
the number 1. -/
theorem count_at_inherited_key_is_text :
    "constructor" ∈ (tally inheritedChecked).allEventIds
      ∧ inheritedChecked.lockedItems.countP (fun el => decide (el.dataEventId = some "constructor"))
          + inheritedChecked.ticketInputs.countP
              (fun i => i.checked && decide (ticketEventId i.name = some "constructor"))
          + inheritedChecked.noTicketInputs.countP
              (fun i => i.checked && decide (i.value = "constructor")) = 1
      ∧ (tally inheritedChecked).participationCounts "constructor" = some (JSValue.text 1)
      ∧ getProp (tally inheritedChecked).participationCounts "constructor" ≠ JSValue.number 1
      ∧ (getProp (tally inheritedChecked).participationCounts "constructor").orZero.lessThan 2
          = false := by
  decide

/-- C15. With a non-empty new-selection list: when the discount is 0 the badge
is hidden and the details text gives the number of entries of the
new-selection list; when the discount is greater than 0 the badge is shown with
the label of the rule, and the details text gives the running total and the
discount, followed by the suffix with the number of locked items if and only
if there is at least one locked item. -/
theorem badge_and_details (s : FormState) (v : View)
    (h : (tally s).currentSelection ≠ []) :
    (discountAmount s = 0 →
        (calculateTotal s v).discountBadgeDisplay = "none"
          ∧ (calculateTotal s v).detailsDisplayText
              = toString (tally s).currentSelection.length ++ " Positionen gewählt")
      ∧ (discountAmount s > 0 →
          (calculateTotal s v).discountBadgeDisplay = "inline-block"
            ∧ (calculateTotal s v).discountBadgeText = discountText s
            ∧ (s.lockedItems.length > 0 →
                (calculateTotal s v).detailsDisplayText
                  = "Regulär: " ++ toString (currentTotal s) ++ " € - Rabatt: "
                    ++ toString (discountAmount s) ++ " € "
                    ++ (" (+" ++ toString s.lockedItems.length ++ " bereits gebucht)"))
            ∧ (s.lockedItems.length = 0 →
                (calculateTotal s v).detailsDisplayText
                  = "Regulär: " ++ toString (currentTotal s) ++ " € - Rabatt: "
                    ++ toString (discountAmount s) ++ " € " ++ "")) := by
  constructor
  · intro h0
    rw [calculateTotal_of_no_discount s v h h0]
    exact ⟨rfl, rfl⟩
  · intro hd
    rw [calculateTotal_of_discount s v h hd]
    refine ⟨rfl, rfl, ?_, ?_⟩
    · intro hl
      simp only [discountDetails, lockedText, hl, if_true]
    · intro hl
      simp only [discountDetails, lockedText, hl, Nat.lt_irrefl, if_false]

/-- C15 at three forms: no discount, a discount with a locked item, a discount
without one. -/
theorem badge_and_details_witness :
    ((calculateTotal scenarioPlain blankView).discountBadgeDisplay = "none"
        ∧ (calculateTotal scenarioPlain blankView).detailsDisplayText = "2 Positionen gewählt")
      ∧ ((calculateTotal scenarioDouble blankView).discountBadgeDisplay = "inline-block"
        ∧ (calculateTotal scenarioDouble blankView).detailsDisplayText
            = "Regulär: 23 € - Rabatt: 23 €  (+1 bereits gebucht)")
      ∧ (calculateTotal scenarioSeries blankView).detailsDisplayText
            = "Regulär: 46 € - Rabatt: 23 € " := by
  have h1 := (badge_and_details scenarioPlain blankView (by decide)).1 (by decide)
  have h2 := (badge_and_details scenarioDouble blankView (by decide)).2 (by decide)
  have h3 := (badge_and_details scenarioSeries blankView (by decide)).2 (by decide)
  refine ⟨⟨h1.1, ?_⟩, ⟨h2.1, ?_⟩, ?_⟩
  · rw [h1.2]
    decide
  · rw [h2.2.2.1 (by decide)]
    decide
  · rw [h3.2.2.2 (by decide)]
    decide

/-- C16, as stated, fails: a run that hides the panel assigns nothing else, and
a run without a discount does not assign the badge text, so what an earlier
run wrote there stays. -/
theorem order_independence_counterexample :
    calculateTotal scenarioLockedOnly (calculateTotal scenarioDouble blankView)
        ≠ calculateTotal scenarioLockedOnly blankView
      ∧ (calculateTotal scenarioLockedOnly (calculateTotal scenarioDouble blankView)).priceDisplayText
          = "0"
      ∧ (calculateTotal scenarioLockedOnly blankView).priceDisplayText = ""
      ∧ (calculateTotal scenarioPlain (calculateTotal scenarioDouble blankView)).discountBadgeText
          = DOUBLE_BONUS
      ∧ (calculateTotal scenarioPlain blankView).discountBadgeText = "" := by
  decide

/-- C16, amended. Running `calculateTotal` on `s1` and then on `s2` leaves the
same panel visibility as running it on `s2` alone; when `s2` has a non-empty
new selection it leaves the same price text, badge visibility and details
text as well, and when the discount of `s2` is greater than 0 the same badge
text, hence the same view. A field the run on `s2` does not assign keeps what
the run on `s1` left there. -/
theorem order_independence_of_assigned_fields (v : View) (s1 s2 : FormState) :
    (calculateTotal s2 (calculateTotal s1 v)).priceContainerDisplay
        = (calculateTotal s2 v).priceContainerDisplay
      ∧ ((tally s2).currentSelection ≠ [] →
          (calculateTotal s2 (calculateTotal s1 v)).priceDisplayText
              = (calculateTotal s2 v).priceDisplayText
            ∧ (calculateTotal s2 (calculateTotal s1 v)).discountBadgeDisplay
              = (calculateTotal s2 v).discountBadgeDisplay
            ∧ (calculateTotal s2 (calculateTotal s1 v)).detailsDisplayText
              = (calculateTotal s2 v).detailsDisplayText)
      ∧ ((tally s2).currentSelection ≠ [] → discountAmount s2 > 0 →
          calculateTotal s2 (calculateTotal s1 v) = calculateTotal s2 v)
      ∧ ((tally s2).currentSelection ≠ [] → discountAmount s2 = 0 →
          (calculateTotal s2 (calculateTotal s1 v)).discountBadgeText
            = (calculateTotal s1 v).discountBadgeText)
      ∧ ((tally s2).currentSelection = [] →
          calculateTotal s2 (calculateTotal s1 v)
            = { calculateTotal s1 v with priceContainerDisplay := "none" }) := by
  have hempty : (tally s2).currentSelection = [] →
      calculateTotal s2 (calculateTotal s1 v)
        = { calculateTotal s1 v with priceContainerDisplay := "none" } :=
    fun h => calculateTotal_of_empty s2 _ h
  have hpos : (tally s2).currentSelection ≠ [] → discountAmount s2 > 0 →
      calculateTotal s2 (calculateTotal s1 v) = calculateTotal s2 v := by
    intro h hd
    rw [calculateTotal_of_discount s2 _ h hd, calculateTotal_of_discount s2 _ h hd]
  refine ⟨?_, ?_, hpos, ?_, hempty⟩
  · by_cases h : (tally s2).currentSelection = []
    · rw [calculateTotal_of_empty s2 _ h, calculateTotal_of_empty s2 _ h]
    · rw [panel_shown s2 _ h, panel_shown s2 _ h]
  · intro h
    rcases Nat.eq_zero_or_pos (discountAmount s2) with h0 | hd
    · rw [calculateTotal_of_no_discount s2 _ h h0, calculateTotal_of_no_discount s2 _ h h0]
      exact ⟨rfl, rfl, rfl⟩
    · rw [hpos h hd]
      exact ⟨rfl, rfl, rfl⟩
  · intro h h0
    rw [calculateTotal_of_no_discount s2 _ h h0]

/-- C16, amended, at a run on the double scenario followed by a run on the
series scenario: the view is the one of the series scenario alone. -/
theorem order_independence_of_assigned_fields_witness :
    calculateTotal scenarioSeries (calculateTotal scenarioDouble blankView)
        = calculateTotal scenarioSeries blankView
      ∧ (calculateTotal scenarioSeries blankView).priceDisplayText = "23" :=
  ⟨(order_independence_of_assigned_fields blankView scenarioDouble scenarioSeries).2.2.1
    (by decide) (by decide), by decide⟩

/-- C17. The discount is at least 0 and at most the running total, so the final
price is never negative. The final price is 0 only when the discount covers
every new selection: there is no new selection, or one selection under either
bonus, or two selections under the double bonus. -/
theorem discount_bounds (s : FormState) :
    (0 : Int) ≤ (discountAmount s : Int)
      ∧ discountAmount s ≤ currentTotal s
      ∧ 0 ≤ finalPrice s
      ∧ (finalPrice s = 0 →
          discountAmount s = (tally s).currentSelection.sum
            ∧ ((tally s).currentSelection = []
              ∨ ((tally s).currentSelection.length = 1
                  ∧ (discountText s = SERIES_BONUS ∨ discountText s = DOUBLE_BONUS))
              ∨ ((tally s).currentSelection.length = 2 ∧ discountText s = DOUBLE_BONUS))) := by
  have hsum := sortedSelection_sum s
  have hlen := sortedSelection_length s
  have hposs := sortedSelection_pos s
  have key : discountAmount s ≤ currentTotal s
      ∧ (discountAmount s = currentTotal s →
          ((tally s).currentSelection = []
            ∨ ((tally s).currentSelection.length = 1
                ∧ (discountText s = SERIES_BONUS ∨ discountText s = DOUBLE_BONUS))
            ∨ ((tally s).currentSelection.length = 2 ∧ discountText s = DOUBLE_BONUS))) := by
    by_cases hsel : (tally s).currentSelection = []
    · have hd := discount_of_empty s hsel
      exact ⟨by simp [discountAmount, hd], fun _ => Or.inl hsel⟩
    · cases hdb : doubleParticipatedInAll s
      · cases hp : participatedInAll s
        · have hd := discount_of_none s hdb hp
          have h0 : discountAmount s = 0 := by simp [discountAmount, hd]
          refine ⟨by omega, fun heq => ?_⟩
          have hz : (sortedSelection s).sum = 0 := by omega
          have hnil := eq_nil_of_sum_eq_zero _ hposs hz
          exact absurd hnil (sortAscending_ne_nil _ hsel)
        · obtain ⟨a, l, hl, hd⟩ := discount_of_single s hsel hdb hp
          have ha : discountAmount s = a := by simp [discountAmount, hd]
          have ht : discountText s = SERIES_BONUS := by simp [discountText, hd]
          rw [hl, List.sum_cons] at hsum
          rw [hl] at hposs hlen
          refine ⟨by omega, fun heq => Or.inr (Or.inl ⟨?_, Or.inl ht⟩)⟩
          have hz : l.sum = 0 := by omega
          have hnil := eq_nil_of_sum_eq_zero l
            (fun p hp => hposs p (List.mem_cons_of_mem a hp)) hz
          rw [hnil] at hlen
          simpa using hlen.symm
      · have hd := discount_of_double s hsel hdb
        have ha : discountAmount s = ((sortedSelection s).take 2).sum := by
          simp [discountAmount, hd]
        have ht : discountText s = DOUBLE_BONUS := by simp [discountText, hd]
        have hsplit : ((sortedSelection s).take 2).sum + ((sortedSelection s).drop 2).sum
            = currentTotal s := by
          rw [← List.sum_append, List.take_append_drop, hsum]
        refine ⟨by omega, fun heq => ?_⟩
        have hz : ((sortedSelection s).drop 2).sum = 0 := by omega
        have hnil := eq_nil_of_sum_eq_zero _
          (fun p hp => hposs p (List.mem_of_mem_drop hp)) hz
        have hle : (sortedSelection s).length ≤ 2 := List.drop_eq_nil_iff.mp hnil
        have hne : (tally s).currentSelection.length ≠ 0 := fun h =>
          hsel (List.length_eq_zero.mp h)
        rw [hlen] at hle
        have : (tally s).currentSelection.length = 1 ∨ (tally s).currentSelection.length = 2 := by
          omega
        rcases this with h1 | h2
        · exact Or.inr (Or.inl ⟨h1, Or.inr ht⟩)
        · exact Or.inr (Or.inr ⟨h2, ht⟩)
  refine ⟨Int.ofNat_nonneg _, key.1, ?_, ?_⟩
  · unfold finalPrice
    have := key.1
    omega
  · intro hf
    have heq : discountAmount s = currentTotal s := by
      unfold finalPrice at hf
      have := key.1
      omega
    exact ⟨by rw [heq, currentTotal_eq_sum], key.2 heq⟩

/-- C17 at the double scenario, where the one new selection is free. -/
theorem discount_bounds_witness :
    finalPrice scenarioDouble = 0
      ∧ (tally scenarioDouble).currentSelection.length = 1
      ∧ discountAmount scenarioDouble = (tally scenarioDouble).currentSelection.sum :=
  ⟨by decide, by decide, ((discount_bounds scenarioDouble).2.2.2 (by decide)).1⟩

/-- C18. Permuting the locked items, the ticket inputs or the no-ticket inputs
among themselves leaves the running total, the sorted new-selection list, the
per-event counts, the discount with its label, the final price and the view
written by `calculateTotal` as they were; the registered ids are the same
set. -/
theorem traversal_order_irrelevant (s s' : FormState)
    (h1 : s.lockedItems.Perm s'.lockedItems)
    (h2 : s.ticketInputs.Perm s'.ticketInputs)
    (h3 : s.noTicketInputs.Perm s'.noTicketInputs) :
    currentTotal s = currentTotal s'
      ∧ sortedSelection s = sortedSelection s'
      ∧ (∀ e, (tally s).participationCounts e = (tally s').participationCounts e)
      ∧ (∀ e, e ∈ (tally s).allEventIds ↔ e ∈ (tally s').allEventIds)
      ∧ discount s = discount s'
      ∧ finalPrice s = finalPrice s'
      ∧ ∀ v, calculateTotal s v = calculateTotal s' v := by
  have htot : currentTotal s = currentTotal s' := by
    unfold currentTotal
    rw [tally_currentTotal, tally_currentTotal, h2.countP_eq, h3.countP_eq]
  have hsel : (tally s).currentSelection = (tally s').currentSelection := by
    rw [tally_currentSelection, tally_currentSelection, h2.countP_eq, h3.countP_eq]
  have hsorted : sortedSelection s = sortedSelection s' := by
    unfold sortedSelection
    rw [hsel]
  have hcounts : ∀ e, (tally s).participationCounts e = (tally s').participationCounts e := by
    intro e
    rw [tally_participationCounts, tally_participationCounts]
    unfold recorded
    rw [h1.countP_eq, h2.countP_eq, h3.countP_eq]
  have hids : ∀ e, e ∈ (tally s).allEventIds ↔ e ∈ (tally s').allEventIds := by
    intro e
    rw [mem_allEventIds, mem_allEventIds, some_mem_carriedIds, some_mem_carriedIds,
      h1.mem_iff]
    simp only [h2.mem_iff, h3.mem_iff]
  have helig := eligibility_congr (tally s) (tally s') hids hcounts
  have hdisc : discount s = discount s' := by
    unfold discount doubleParticipatedInAll participatedInAll
    rw [hsorted, helig]
  have hamt : discountAmount s = discountAmount s' := by
    unfold discountAmount
    rw [hdisc]
  have htext : discountText s = discountText s' := by
    unfold discountText
    rw [hdisc]
  have hfin : finalPrice s = finalPrice s' := by
    unfold finalPrice
    rw [htot, hamt]
  refine ⟨htot, hsorted, hcounts, hids, hdisc, hfin, ?_⟩
  intro v
  unfold calculateTotal
  simp only [hsorted, hfin, hamt, htext, htot, h1.length_eq]

/-- C18 at the series scenario and the same inputs in the other order. -/
theorem traversal_order_irrelevant_witness :
    calculateTotal scenarioSeries blankView = calculateTotal scenarioSeriesSwapped blankView
      ∧ (tally scenarioSeries).allEventIds = ["1", "2"]
      ∧ (tally scenarioSeriesSwapped).allEventIds = ["2", "1"] :=
  ⟨(traversal_order_irrelevant scenarioSeries scenarioSeriesSwapped (List.Perm.refl _)
      (List.Perm.swap _ _ _) (List.Perm.refl _)).2.2.2.2.2.2 blankView,
    by decide, by decide⟩

/-- C19 fails on the code at two events with the ids `constructor` and
`toString`, each with one checked ticket input. The new selection is non-empty,
every registered id has one participation and none has two, and a ticket input
is checked, so the claim gives the discount 23. The code reads the counts of
these ids as strings, keeps `doubleParticipatedInAll` and applies the double
bonus with discount 46. -/
theorem series_amount_missed_at_inherited_keys :
    (tally inheritedBoth).currentSelection ≠ []
      ∧ (∀ id ∈ (tally inheritedBoth).allEventIds, 1 ≤ participations inheritedBoth id)
      ∧ (∃ id ∈ (tally inheritedBoth).allEventIds, participations inheritedBoth id < 2)
      ∧ (∃ i ∈ inheritedBoth.ticketInputs,
          i.checked = true ∧ truthy (ticketEventId i.name) = true)
      ∧ sortedSelection inheritedBoth = [23, 23]
      ∧ discountText inheritedBoth = DOUBLE_BONUS
      ∧ discountAmount inheritedBoth = 46
      ∧ discountAmount inheritedBoth ≠ 23 := by
  decide

end TicketParticipation
